import Mathlib

/-!
Shallow embedding of the Chatbot_Bookstore conversational core
(`nlp_processor.py`, `session_manager.py`, `chatbot.py`) and proofs about it.

Modelling conventions:
* Python `str` is modelled as `String` / `List Char`; `datetime.now()` is an
  explicit `now : Nat` parameter (seconds); ISO timestamps become `Nat`.
* Python `float` confidences are modelled as `ℚ` (the additive bonus
  arithmetic of the source - 0.7, 0.4, 0.2, 0.1, 0.01 - is exact).
* Python's unicode-aware `\w` and `str.lower` are modelled over the alphabet
  actually used by the program: ASCII alphanumerics, the underscore, and the
  Vietnamese letters listed explicitly in `normalize_text`'s character class.
* `re` patterns are embedded as ASTs (`RE`) run by a backtracking matcher
  with Python's leftmost / greedy / lazy preferences, word boundaries and
  negative lookahead; fuel makes termination trivial and is irrelevant on
  all inputs considered.
-/

namespace Bookstore

/-! ### Character model -/

/-- The lowercase Vietnamese letters of the character class kept by
`VietnameseTextProcessor.normalize_text` (`nlp_processor.py` line 123). -/
def vietLowerChars : List Char :=
  ['à', 'á', 'ạ', 'ả', 'ã', 'â', 'ầ', 'ấ', 'ậ', 'ẩ', 'ẫ', 'ă', 'ằ', 'ắ', 'ặ',
   'ẳ', 'ẵ', 'è', 'é', 'ẹ', 'ẻ', 'ẽ', 'ê', 'ề', 'ế', 'ệ', 'ể', 'ễ', 'ì', 'í',
   'ị', 'ỉ', 'ĩ', 'ò', 'ó', 'ọ', 'ỏ', 'õ', 'ô', 'ồ', 'ố', 'ộ', 'ổ', 'ỗ', 'ơ',
   'ờ', 'ớ', 'ợ', 'ở', 'ỡ', 'ù', 'ú', 'ụ', 'ủ', 'ũ', 'ư', 'ừ', 'ứ', 'ự', 'ử',
   'ữ', 'ỳ', 'ý', 'ỵ', 'ỷ', 'ỹ', 'đ']

/-- The corresponding uppercase Vietnamese letters. -/
def vietUpperChars : List Char :=
  ['À', 'Á', 'Ạ', 'Ả', 'Ã', 'Â', 'Ầ', 'Ấ', 'Ậ', 'Ẩ', 'Ẫ', 'Ă', 'Ằ', 'Ắ', 'Ặ',
   'Ẳ', 'Ẵ', 'È', 'É', 'Ẹ', 'Ẻ', 'Ẽ', 'Ê', 'Ề', 'Ế', 'Ệ', 'Ể', 'Ễ', 'Ì', 'Í',
   'Ị', 'Ỉ', 'Ĩ', 'Ò', 'Ó', 'Ọ', 'Ỏ', 'Õ', 'Ô', 'Ồ', 'Ố', 'Ộ', 'Ổ', 'Ỗ', 'Ơ',
   'Ờ', 'Ớ', 'Ợ', 'Ở', 'Ỡ', 'Ù', 'Ú', 'Ụ', 'Ủ', 'Ũ', 'Ư', 'Ừ', 'Ứ', 'Ự', 'Ử',
   'Ữ', 'Ỳ', 'Ý', 'Ỵ', 'Ỷ', 'Ỹ', 'Đ']

/-- Uppercase-to-lowercase table for `str.lower`, restricted (see header)
to ASCII letters and the Vietnamese alphabet. -/
def lowerTable : List (Char × Char) :=
  (List.zip
    ['A', 'B', 'C', 'D', 'E', 'F', 'G', 'H', 'I', 'J', 'K', 'L', 'M',
     'N', 'O', 'P', 'Q', 'R', 'S', 'T', 'U', 'V', 'W', 'X', 'Y', 'Z']
    ['a', 'b', 'c', 'd', 'e', 'f', 'g', 'h', 'i', 'j', 'k', 'l', 'm',
     'n', 'o', 'p', 'q', 'r', 's', 't', 'u', 'v', 'w', 'x', 'y', 'z'])
  ++ List.zip vietUpperChars vietLowerChars

/-- `str.lower` on one character (identity outside the modelled alphabet). -/
def charLower (c : Char) : Char :=
  match lowerTable.find? (fun p => p.1 = c) with
  | some p => p.2
  | none => c

/-- `str.lower` on a whole string. -/
def pyLower (s : String) : String := String.mk (s.toList.map charLower)

/-- Python `\s` (whitespace class), ASCII part. -/
def isSpacePy (c : Char) : Bool :=
  c = ' ' || c = '\t' || c = '\n' || c = '\x0b' || c = '\x0c' || c = '\r'

/-- Python `\w` (word character), over the modelled alphabet. -/
def isWordPy (c : Char) : Bool :=
  c.isAlphanum || c = '_' || vietLowerChars.contains c || vietUpperChars.contains c

/-- ASCII digit, Python `\d` over the modelled alphabet. -/
def isDigitPy (c : Char) : Bool := '0' ≤ c && c ≤ '9'

/-- A character kept by the character class
`[^\w\s<Vietnamese letters>]` replacement in `normalize_text`. -/
def isAllowedChar (c : Char) : Bool :=
  isWordPy c || isSpacePy c || vietLowerChars.contains c

/-! ### Basic string helpers (Python `str.strip`, `str.split`, `in`) -/

/-- `str.strip()` : drop leading and trailing whitespace. -/
def pyStripList (l : List Char) : List Char :=
  ((l.dropWhile isSpacePy).reverse.dropWhile isSpacePy).reverse

/-- `str.strip()` on `String`. -/
def pyStrip (s : String) : String := String.mk (pyStripList s.toList)

/-- Replace every maximal run of whitespace by a single space
(`re.sub(r'\s+', ' ', text)`); the flag records whether the previous
character was inside a whitespace run. -/
def collapseWsAux : Bool → List Char → List Char
  | _, [] => []
  | prev, c :: rest =>
    if isSpacePy c then
      if prev then collapseWsAux true rest else ' ' :: collapseWsAux true rest
    else c :: collapseWsAux false rest

def collapseWs (l : List Char) : List Char := collapseWsAux false l

/-- `str.split()` : split on whitespace runs, no empty words. -/
def pySplitAux : List Char → List Char → List String
  | [], cur => if cur.isEmpty then [] else [String.mk cur.reverse]
  | c :: rest, cur =>
    if isSpacePy c then
      if cur.isEmpty then pySplitAux rest [] else String.mk cur.reverse :: pySplitAux rest []
    else pySplitAux rest (c :: cur)

def pyWords (s : String) : List String := pySplitAux s.toList []

/-- Python `needle in haystack` on strings (substring containment). -/
def containsSub : List Char → List Char → Bool
  | n, [] => n.isEmpty
  | n, c :: rest => n.isPrefixOf (c :: rest) || containsSub n rest

def strContains (haystack needle : String) : Bool := containsSub needle.toList haystack.toList

/-! ### VietnameseTextProcessor -/

/-- `VietnameseTextProcessor.normalize_text`, list level: lower-case, strip,
replace characters outside the allowlist by a space, collapse whitespace
runs, strip again. -/
def normalizeList (l : List Char) : List Char :=
  pyStripList (collapseWs ((pyStripList (l.map charLower)).map
    (fun c => if isAllowedChar c then c else ' ')))

/-- `VietnameseTextProcessor.normalize_text` (`nlp_processor.py` 113-128). -/
def normalize_text (s : String) : String :=
  if s = "" then "" else String.mk (normalizeList s.toList)

/-- `VietnameseTextProcessor.SYNONYMS` (insertion order of the dict). -/
def SYNONYMS : List (String × List String) :=
  [("sách", ["cuốn", "quyển", "tập", "book"]),
   ("giá", ["tiền", "cost", "price"]),
   ("tác giả", ["writer", "author"]),
   ("thể loại", ["category", "genre", "loại"]),
   ("đặt", ["mua", "order", "purchase"]),
   ("hay", ["tốt", "đáng đọc", "interesting", "good"])]

/-- Is there a `\b` boundary between `prev` and `cur` (`none` = string edge)? -/
def boundaryBetween (prev cur : Option Char) : Bool :=
  prev.elim false isWordPy != cur.elim false isWordPy

/-- `re.sub(rf'\b{w}\b', repl, text)` : scan left to right, replacing every
whole-word occurrence of `w`; `prev` is the character of the *original*
string just before the scan position (for the `\b` assertions). -/
def subWordAux (w repl : List Char) : Nat → Option Char → List Char → List Char
  | _, _, [] => []
  | 0, _, text => text
  | fuel + 1, prev, c :: rest =>
    let text := c :: rest
    if w ≠ [] && w.isPrefixOf text
        && boundaryBetween prev (some c)
        && boundaryBetween w.getLast? (text.drop w.length).head? then
      repl ++ subWordAux w repl fuel w.getLast? (text.drop w.length)
    else
      c :: subWordAux w repl fuel (some c) rest

def subWord (w repl text : List Char) : List Char :=
  subWordAux w repl text.length none text

/-- `VietnameseTextProcessor.expand_synonyms` (`nlp_processor.py` 130-136):
for each synonym table entry, substitute each synonym (whole words only)
by its main word, re-assigning the text between substitutions. -/
def expand_synonyms (t : String) : String :=
  String.mk (SYNONYMS.foldl
    (fun acc p => p.2.foldl (fun acc2 syn => subWord syn.toList p.1.toList acc2) acc)
    t.toList)

/-! ### SentimentAnalyzer -/

inductive SentimentType where
  | POSITIVE | NEGATIVE | NEUTRAL | FRUSTRATED | EXCITED
  deriving DecidableEq, Repr

/-- `SentimentAnalyzer.POSITIVE_KEYWORDS`. -/
def POSITIVE_KEYWORDS : List String :=
  ["tốt", "hay", "tuyệt", "xuất sắc", "đẹp", "thích", "yêu", "hài lòng",
   "vui", "hạnh phúc", "thú vị", "hấp dẫn", "cuốn hút", "ấn tượng",
   "cảm ơn", "thanks", "thank you", "cảm ơn bạn", "tuyệt vời",
   "hoàn hảo", "chất lượng", "đáng giá", "nên mua", "khuyên"]

/-- `SentimentAnalyzer.NEGATIVE_KEYWORDS`. -/
def NEGATIVE_KEYWORDS : List String :=
  ["tệ", "xấu", "không thích", "ghét", "chán", "nhàm chán", "thất vọng",
   "buồn", "tức giận", "khó chịu", "phiền", "không hài lòng",
   "đắt", "mắc", "không đáng", "lừa đảo", "giả", "kém chất lượng",
   "hết hàng", "không có", "thất bại", "lỗi", "sai"]

/-- `SentimentAnalyzer.FRUSTRATED_KEYWORDS`. -/
def FRUSTRATED_KEYWORDS : List String :=
  ["tại sao", "sao lại", "không hiểu", "khó hiểu", "phức tạp",
   "rối rắm", "không biết", "làm sao", "như thế nào", "help",
   "giúp", "hướng dẫn", "không tìm thấy", "không có"]

/-- `SentimentAnalyzer.EXCITED_KEYWORDS`. -/
def EXCITED_KEYWORDS : List String :=
  ["wow", "tuyệt quá", "amazing", "incredible", "fantastic",
   "tuyệt vời", "quá hay", "quá tốt", "thích quá", "mê quá",
   "đặt ngay", "mua ngay", "cần ngay", "gấp", "urgent"]

/-- `len(words.intersection(kw))` where `words = set(text.split())` is
given as the (deduplicated) word list. -/
def keywordCount (words : List String) (kw : List String) : Nat :=
  ((words.dedup).filter (fun w => kw.contains w)).length

/-- `SentimentAnalyzer.analyze_sentiment` (`nlp_processor.py` 185-210). -/
def analyze_sentiment (text : String) : SentimentType :=
  if text = "" then .NEUTRAL else
  let words := pyWords (pyLower text)
  let positive_count := keywordCount words POSITIVE_KEYWORDS
  let negative_count := keywordCount words NEGATIVE_KEYWORDS
  let frustrated_count := keywordCount words FRUSTRATED_KEYWORDS
  let excited_count := keywordCount words EXCITED_KEYWORDS
  if excited_count > 0 ∧ excited_count ≥ positive_count then .EXCITED
  else if frustrated_count > 0 ∧ frustrated_count ≥ negative_count then .FRUSTRATED
  else if positive_count > negative_count then .POSITIVE
  else if negative_count > positive_count then .NEGATIVE
  else .NEUTRAL

/-- Reference definition following the spec wording of claim C6: intersect
the *set* of whitespace-split lower-cased words with the four keyword sets
(as finite sets) and resolve in the fixed order. -/
def sentimentReference (text : String) : SentimentType :=
  if text = "" then .NEUTRAL else
  let ws : Finset String := (pyWords (pyLower text)).toFinset
  let positive_count := (ws ∩ POSITIVE_KEYWORDS.toFinset).card
  let negative_count := (ws ∩ NEGATIVE_KEYWORDS.toFinset).card
  let frustrated_count := (ws ∩ FRUSTRATED_KEYWORDS.toFinset).card
  let excited_count := (ws ∩ EXCITED_KEYWORDS.toFinset).card
  if excited_count > 0 ∧ excited_count ≥ positive_count then .EXCITED
  else if frustrated_count > 0 ∧ frustrated_count ≥ negative_count then .FRUSTRATED
  else if positive_count > negative_count then .POSITIVE
  else if negative_count > positive_count then .NEGATIVE
  else .NEUTRAL

/-! ### A small `re` engine

Backtracking matcher with Python's preferences: alternation tries the left
branch first, greedy repetition consumes as much as possible first, lazy
(`+?`) as little as possible; `\b`, `(?!...)`, `$` and capturing groups are
supported.  `fuel` only bounds recursion depth. -/

inductive RE where
  | eps
  | cls (p : Char → Bool)
  | seq (a b : RE)
  | alt (a b : RE)
  | star (a : RE) (lazy : Bool)
  | opt (a : RE)
  | grp (n : Nat) (a : RE)
  | wb
  | negla (a : RE)
  | eos

/-- Captured groups: `(group number, start, end)`, most recent first. -/
abbrev Caps := List (Nat × Nat × Nat)

/-- Is there a word boundary at position `pos` of `s`? -/
def wordBoundaryAt (s : List Char) (pos : Nat) : Bool :=
  let before := if pos = 0 then none else s[pos - 1]?
  boundaryBetween before s[pos]?

/-- Match `r` at position `pos`, calling the continuation `k` with the end
position and captures of each candidate in preference order; the first
success wins. -/
def reMatch (s : List Char) : Nat → RE → Nat → Caps →
    (Nat → Caps → Option (Nat × Caps)) → Option (Nat × Caps)
  | 0, _, _, _, _ => none
  | fuel + 1, r, pos, caps, k =>
    match r with
    | .eps => k pos caps
    | .cls p =>
      match s[pos]? with
      | some c => if p c then k (pos + 1) caps else none
      | none => none
    | .seq a b => reMatch s fuel a pos caps (fun p2 c2 => reMatch s fuel b p2 c2 k)
    | .alt a b =>
      (reMatch s fuel a pos caps k).orElse (fun _ => reMatch s fuel b pos caps k)
    | .star a lz =>
      if lz then
        (k pos caps).orElse (fun _ =>
          reMatch s fuel a pos caps (fun p2 c2 =>
            if p2 = pos then none else reMatch s fuel (.star a true) p2 c2 k))
      else
        (reMatch s fuel a pos caps (fun p2 c2 =>
          if p2 = pos then none else reMatch s fuel (.star a false) p2 c2 k)).orElse
          (fun _ => k pos caps)
    | .opt a => (reMatch s fuel a pos caps k).orElse (fun _ => k pos caps)
    | .grp n a => reMatch s fuel a pos caps (fun p2 c2 => k p2 ((n, pos, p2) :: c2))
    | .wb => if wordBoundaryAt s pos then k pos caps else none
    | .negla a =>
      match reMatch s fuel a pos caps (fun p2 c2 => some (p2, c2)) with
      | some _ => none
      | none => k pos caps
    | .eos => if pos = s.length then k pos caps else none

/-- Generous recursion-depth fuel for a text of length `n`. -/
def reFuel (n : Nat) : Nat := 8 * n + 400

/-- Try to match `r` at exactly position `pos`. -/
def matchAt (s : List Char) (r : RE) (pos : Nat) : Option (Nat × Caps) :=
  reMatch s (reFuel s.length) r pos [] (fun p c => some (p, c))

/-- `re.search` : leftmost match, as `(start, end, captures)`. -/
def reSearch (s : List Char) (r : RE) : Option (Nat × Nat × Caps) :=
  (List.range (s.length + 1)).findSome? (fun i =>
    (matchAt s r i).map (fun m => (i, m.1, m.2)))

/-- `re.finditer` : non-overlapping matches scanning left to right. -/
def reFindIterAux (s : List Char) (r : RE) : Nat → Nat → List (Nat × Nat × Caps)
  | 0, _ => []
  | fuel + 1, pos =>
    match (List.range' pos (s.length + 1 - pos)).findSome? (fun i =>
        (matchAt s r i).map (fun m => (i, m.1, m.2))) with
    | none => []
    | some (st, en, caps) =>
      (st, en, caps) :: reFindIterAux s r fuel (if en = st then en + 1 else en)

def reFindIter (s : List Char) (r : RE) : List (Nat × Nat × Caps) :=
  reFindIterAux s r (s.length + 2) 0

/-- The text of the span `[st, en)` of `s`. -/
def sliceList (s : List Char) (st en : Nat) : List Char := (s.drop st).take (en - st)

/-- `match.group(n)` as a character list. -/
def groupSlice (s : List Char) (caps : Caps) (n : Nat) : Option (List Char) :=
  (caps.find? (fun g => g.1 = n)).map (fun g => sliceList s g.2.1 g.2.2)

/-- `int()` on a run of ASCII digits. -/
def natOfDigits (l : List Char) : Nat :=
  l.foldl (fun a c => a * 10 + (c.toNat - 48)) 0

/-! Pattern-building helpers (ignore-case literals, `\w+`, `\s*`, ...). -/

/-- A literal character, compared case-insensitively (`re.IGNORECASE`;
for the few patterns compiled without it the operands are caseless). -/
def chr (c : Char) : RE := .cls (fun x => charLower x = charLower c)

def reOfList : List Char → RE
  | [] => .eps
  | [c] => chr c
  | c :: rest => .seq (chr c) (reOfList rest)

/-- A literal string. -/
def lit (s : String) : RE := reOfList s.toList

def reAlts : List RE → RE
  | [] => .eps
  | [r] => r
  | r :: rest => .alt r (reAlts rest)

/-- Alternation of literal strings, e.g. `(đặt|mua|order)`. -/
def altLits (ss : List String) : RE := reAlts (ss.map lit)

def rePlus (r : RE) : RE := .seq r (.star r false)
def rePlusLazy (r : RE) : RE := .seq r (.star r true)

def wChar : RE := .cls isWordPy
def wPlus : RE := rePlus wChar                    -- \w+
def sChar : RE := .cls isSpacePy
def sPlus : RE := rePlus sChar                    -- \s+
def sStar : RE := .star sChar false               -- \s*
def dChar : RE := .cls isDigitPy
def dPlus : RE := rePlus dChar                    -- \d+
def wsChar : RE := .cls (fun c => isWordPy c || isSpacePy c)
def wsPlus : RE := rePlus wsChar                  -- [\w\s]+
def wsPlusLazy : RE := rePlusLazy wsChar          -- [\w\s]+?
def dotChar : RE := .cls (fun c => c ≠ '\n')
def dotPlusLazy : RE := rePlusLazy dotChar        -- .+?

def reSeqs : List RE → RE
  | [] => .eps
  | [r] => r
  | r :: rest => .seq r (reSeqs rest)

/-! ### IntentClassifier -/

inductive IntentType where
  | ORDER | QUERY | SEARCH_BY_TITLE | SEARCH_BY_AUTHOR | SEARCH_BY_CATEGORY
  | SEARCH_BY_PRICE | RECOMMEND | RECOMMEND_BY_PRICE | RECOMMEND_BEST
  | LIST_CATEGORIES | CHECK_STOCK | GREETING | GOODBYE | HELP
  | COMPARISON | REVIEW | UNKNOWN
  deriving DecidableEq, Repr

/-- `IntentType(...).value`. -/
def intentValue : IntentType → String
  | .ORDER => "order" | .QUERY => "query" | .SEARCH_BY_TITLE => "search_by_title"
  | .SEARCH_BY_AUTHOR => "search_by_author" | .SEARCH_BY_CATEGORY => "search_by_category"
  | .SEARCH_BY_PRICE => "search_by_price" | .RECOMMEND => "recommend"
  | .RECOMMEND_BY_PRICE => "recommend_by_price" | .RECOMMEND_BEST => "recommend_best"
  | .LIST_CATEGORIES => "list_categories" | .CHECK_STOCK => "check_stock"
  | .GREETING => "greeting" | .GOODBYE => "goodbye" | .HELP => "help"
  | .COMPARISON => "comparison" | .REVIEW => "review" | .UNKNOWN => "unknown"

/-- The patterns of `IntentClassifier._build_intent_patterns`
(`nlp_processor.py` 320-397), one list per intent, as `RE` ASTs. -/
def orderPatterns : List RE :=
  [reSeqs [.wb, .grp 1 (altLits ["đặt", "mua", "order"]), sPlus,
           .grp 2 (altLits ["sách", "cuốn", "quyển"])],
   reSeqs [.wb, .grp 1 (altLits ["mua", "đặt"]), sPlus, wPlus],
   reSeqs [.wb, lit "đặt", sPlus, lit "mua"],
   reSeqs [.wb, lit "order", sPlus, wPlus],
   reSeqs [.wb, lit "mua", sPlus, wPlus]]

def queryPatterns : List RE :=
  [reSeqs [.wb, .grp 1 (altLits ["giá", "bao nhiêu", "thông tin", "tra cứu"]), sPlus,
           .opt (.grp 2 (altLits ["của", "về"])), sStar, wPlus],
   reSeqs [.wb, .grp 1 (altLits ["giá", "bao nhiêu"]), sPlus, wPlus],
   reSeqs [.wb, lit "thông tin", sPlus, .grp 1 (altLits ["về", "của"]), sPlus, wPlus],
   reSeqs [.wb, lit "tra cứu", sPlus, wPlus],
   reSeqs [.wb, wPlus, sPlus, .grp 1 (altLits ["có", "tồn tại", "hiện có"]), sPlus,
           .grp 2 (altLits ["bao nhiêu", "giá", "thông tin"])],
   reSeqs [.wb, wPlus, sPlus, .grp 1 (altLits ["bao nhiêu", "giá", "thông tin"])],
   reSeqs [.wb, .grp 1 (altLits ["có bao nhiêu", "giá bao nhiêu", "thông tin gì"]), sPlus,
           .opt (.grp 2 (altLits ["về", "của"])), sStar, wPlus]]

def searchByTitlePatterns : List RE :=
  [reSeqs [.wb, .grp 1 (altLits ["tìm", "tìm kiếm", "có"]), sPlus,
           .grp 2 (altLits ["sách", "cuốn"]), sPlus, wPlus],
   reSeqs [.wb, wPlus, sPlus, .grp 1 (altLits ["có", "tồn tại", "hiện có"])],
   reSeqs [.wb, .grp 1 (altLits ["sách", "cuốn"]), sPlus, wPlus]]

def searchByAuthorPatterns : List RE :=
  [reSeqs [.wb, .grp 1 (altLits ["tác giả", "sách của", "viết bởi"]), sPlus, wsPlus],
   reSeqs [.wb, wsPlus, sPlus, .grp 1 (altLits ["viết", "tác giả"])],
   reSeqs [.wb, lit "sách", sPlus, .grp 1 (altLits ["của", "bởi"]), sPlus, wsPlus],
   reSeqs [.wb, lit "sách", sPlus, .negla (.seq (lit "về") sChar),
           .negla (.seq (lit "hay") .wb), .negla (.seq (lit "tốt") .wb),
           .negla (.seq (lit "đáng đọc") .wb), wsPlus]]

def searchByCategoryPatterns : List RE :=
  [reSeqs [.wb, .grp 1 (altLits ["thể loại", "loại sách", "sách về"]), sPlus, wsPlus],
   reSeqs [.wb, wPlus, sPlus, .grp 1 (altLits ["thể loại", "loại"])],
   reSeqs [.wb, lit "sách", sPlus, .grp 1 (altLits ["về", "thuộc loại"]), sPlus, wsPlus]]

def searchByPricePatterns : List RE :=
  [reSeqs [.wb, .grp 1 (altLits ["giá", "sách"]), sPlus,
           .grp 2 (altLits ["dưới", "từ", "trên", "cao hơn", "thấp hơn"]), sStar, dPlus],
   reSeqs [.wb, .grp 1 (altLits ["dưới", "từ", "trên"]), sStar, dPlus, sStar,
           .opt (.grp 2 (altLits ["vnd", "đồng", "tiền"]))],
   reSeqs [.wb, lit "giá", sPlus, lit "từ", sStar, dPlus, sStar, lit "đến", sStar, dPlus],
   reSeqs [.wb, lit "từ", sStar, dPlus, sStar, lit "đến", sStar, dPlus]]

def recommendPatterns : List RE :=
  [reSeqs [.wb, .grp 1 (altLits ["gợi ý", "hay", "tốt", "đáng đọc", "nên đọc"])],
   reSeqs [.wb, .grp 1 (altLits ["sách", "cuốn"]), sPlus,
           .grp 2 (altLits ["hay", "tốt", "đáng đọc"])],
   reSeqs [.wb, lit "gợi ý", sPlus, .grp 1 (altLits ["sách", "cuốn"])],
   reSeqs [.wb, .grp 1 (altLits ["hay nhất", "bán chạy"])]]

def recommendByPricePatterns : List RE :=
  [reSeqs [.wb, .grp 1 (altLits ["sách", "cuốn"]), sPlus,
           .grp 2 (altLits ["hay", "tốt", "đáng đọc"]), sPlus,
           .grp 3 (altLits ["dưới", "từ", "trên"]), sStar, dPlus],
   reSeqs [.wb, .grp 1 (altLits ["hay", "tốt", "đáng đọc"]), sPlus,
           .grp 2 (altLits ["dưới", "từ", "trên"]), sStar, dPlus],
   reSeqs [.wb, lit "gợi ý", sPlus, .grp 1 (altLits ["sách", "cuốn"]), sPlus,
           .grp 2 (altLits ["dưới", "từ", "trên"]), sStar, dPlus]]

def listCategoriesPatterns : List RE :=
  [reSeqs [.wb, .grp 1 (altLits ["cửa hàng", "shop"]), sPlus,
           .grp 2 (altLits ["có", "những"]), sPlus,
           .grp 3 (altLits ["loại sách", "thể loại"])],
   reSeqs [.wb, .grp 1 (altLits ["danh sách", "có những"]), sPlus,
           .grp 2 (altLits ["loại sách", "thể loại"])],
   reSeqs [.wb, .grp 1 (altLits ["loại sách", "thể loại"]), sPlus,
           .grp 2 (altLits ["gì", "nào"])]]

def checkStockPatterns : List RE :=
  [reSeqs [.wb, .grp 1 (altLits ["tồn kho", "còn hàng", "có sẵn"]), sPlus,
           .opt (.grp 2 (altLits ["của", "về"])), sStar, wPlus],
   reSeqs [.wb, wPlus, sPlus, .grp 1 (altLits ["còn", "có"]), sPlus,
           .grp 2 (altLits ["bao nhiêu", "mấy"])],
   reSeqs [.wb, .grp 1 (altLits ["tồn kho", "còn hàng"]), sPlus, wPlus]]

def greetingPatterns : List RE :=
  [reSeqs [.wb, .grp 1 (altLits ["xin chào", "chào", "hello", "hi"]), .wb],
   reSeqs [.wb, lit "chào", sPlus, .grp 1 (altLits ["bạn", "anh", "chị", "em"])],
   reSeqs [.wb, lit "hello", sPlus, wPlus]]

def goodbyePatterns : List RE :=
  [reSeqs [.wb, .grp 1 (altLits ["tạm biệt", "bye", "goodbye"]), .wb],
   reSeqs [.wb, lit "hẹn", sPlus, lit "gặp", sPlus, lit "lại"],
   reSeqs [.wb, lit "bye", sPlus, wPlus]]

def helpPatterns : List RE :=
  [reSeqs [.wb, .grp 1 (altLits ["giúp", "help", "hướng dẫn"]), .wb],
   reSeqs [.wb, .grp 1 (altLits ["làm sao", "như thế nào"]), sPlus, lit "để"],
   reSeqs [.wb, lit "help", sPlus, wPlus]]

/-- `intent_patterns` in dict insertion order. -/
def intent_patterns : List (IntentType × List RE) :=
  [(.ORDER, orderPatterns), (.QUERY, queryPatterns),
   (.SEARCH_BY_TITLE, searchByTitlePatterns),
   (.SEARCH_BY_AUTHOR, searchByAuthorPatterns),
   (.SEARCH_BY_CATEGORY, searchByCategoryPatterns),
   (.SEARCH_BY_PRICE, searchByPricePatterns),
   (.RECOMMEND, recommendPatterns), (.RECOMMEND_BY_PRICE, recommendByPricePatterns),
   (.LIST_CATEGORIES, listCategoriesPatterns), (.CHECK_STOCK, checkStockPatterns),
   (.GREETING, greetingPatterns), (.GOODBYE, goodbyePatterns), (.HELP, helpPatterns)]

/-- `intent_priority.get(intent, 0)` (`nlp_processor.py` 413-427). -/
def intent_priority : IntentType → Nat
  | .ORDER => 10 | .SEARCH_BY_PRICE => 9 | .QUERY => 8 | .RECOMMEND => 7
  | .SEARCH_BY_CATEGORY => 6 | .SEARCH_BY_AUTHOR => 5 | .SEARCH_BY_TITLE => 4
  | .RECOMMEND_BY_PRICE => 3 | .LIST_CATEGORIES => 2 | .CHECK_STOCK => 1
  | _ => 0

/-- `sorted(self.intent_patterns.items(), key=priority, reverse=True)`:
Python's sort is stable, so this is `intent_patterns` ordered by strictly
descending priority with the three priority-0 intents kept in insertion
order. -/
def sorted_intents : List (IntentType × List RE) :=
  [(.ORDER, orderPatterns), (.SEARCH_BY_PRICE, searchByPricePatterns),
   (.QUERY, queryPatterns), (.RECOMMEND, recommendPatterns),
   (.SEARCH_BY_CATEGORY, searchByCategoryPatterns),
   (.SEARCH_BY_AUTHOR, searchByAuthorPatterns),
   (.SEARCH_BY_TITLE, searchByTitlePatterns),
   (.RECOMMEND_BY_PRICE, recommendByPricePatterns),
   (.LIST_CATEGORIES, listCategoriesPatterns), (.CHECK_STOCK, checkStockPatterns),
   (.GREETING, greetingPatterns), (.GOODBYE, goodbyePatterns), (.HELP, helpPatterns)]

/-- The salient keywords of `_calculate_confidence`. -/
def importantKeywords : List String :=
  ["đặt", "mua", "giá", "tìm", "gợi ý", "cửa hàng", "sách", "của", "tác giả", "viết bởi"]

/-- `IntentClassifier._calculate_confidence` (`nlp_processor.py` 466-491)
on the match spanning `[mst, men)` of `s`. -/
def calculate_confidence (s : List Char) (mst men : Nat) : ℚ :=
  let match_length : Nat := men - mst
  let text_length : Nat := s.length
  let base_confidence : ℚ :=
    if 0 < text_length then min ((7 : ℚ)/10) ((match_length : ℚ) / (text_length : ℚ) * 2)
    else (1 : ℚ)/2
  let match_text := (sliceList s mst men).map charLower
  let keyword_bonus : ℚ :=
    if importantKeywords.any (fun k => containsSub k.toList match_text) then (2 : ℚ)/5 else 0
  let position_bonus : ℚ :=
    if (mst : ℚ) < (text_length : ℚ) * (1/2) then (1 : ℚ)/5 else 0
  let length_bonus : ℚ := if 10 < match_length then (1 : ℚ)/10 else 0
  min 1 (base_confidence + keyword_bonus + position_bonus + length_bonus)

structure ExtractedEntity where
  value : String
  confidence : ℚ
  start_pos : Nat
  end_pos : Nat
  entity_type : String
  deriving DecidableEq, Repr

/-- The dynamic parameter dict, as optional named fields. -/
structure Parameters where
  quantity : Option Int := none
  address : Option String := none
  phone : Option String := none
  is_price_only : Option Bool := none
  is_stock_only : Option Bool := none
  price_range : Option (Option Int × Option Int) := none
  author : Option String := none
  category : Option String := none
  deriving DecidableEq, Repr

instance : Inhabited Parameters := ⟨{}⟩

/-! Per-intent parameter extraction (`nlp_processor.py` 493-638). -/

/-- `re.search(r'\b(\d+)\b', text)` then `int(group(1))`
(shared by `_extract_order_parameters` and `extract_quantity`). -/
def firstStandaloneInt (text : String) : Option Nat :=
  let s := text.toList
  (reSearch s (reSeqs [.wb, .grp 1 dPlus, .wb])).bind
    (fun m => (groupSlice s m.2.2 1).map natOfDigits)

/-- `\d{9,11}`, greedy. -/
def phoneDigits : RE :=
  reSeqs [dChar, dChar, dChar, dChar, dChar, dChar, dChar, dChar, dChar,
          .opt (.seq dChar (.opt dChar))]

/-- `IntentClassifier._extract_order_parameters`. -/
def extract_order_parameters (text : String) : Parameters :=
  let s := text.toList
  let quantity := firstStandaloneInt text
  let addrPhone :=
    (reSearch s (reSeqs [.grp 1 dotPlusLazy, chr ',', sStar, .grp 2 phoneDigits])).bind
      (fun m =>
        (groupSlice s m.2.2 1).bind (fun a =>
          (groupSlice s m.2.2 2).map (fun p =>
            (pyStrip (String.mk a), pyStrip (String.mk p)))))
  { quantity := quantity.map (fun n => (n : Int)),
    address := addrPhone.map (·.1),
    phone := addrPhone.map (·.2) }

/-- `IntentClassifier._extract_query_parameters`. -/
def extract_query_parameters (text : String) : Parameters :=
  if strContains text "giá" || strContains text "giá bao nhiêu" then
    { is_price_only := some true }
  else if strContains text "có bao nhiêu sách" || strContains text "có bao nhiêu cuốn"
      || strContains text "tồn kho" || strContains text "còn bao nhiêu" then
    { is_stock_only := some true }
  else if strContains text "bao nhiêu" && (strContains text "giá" || strContains text "tiền") then
    { is_price_only := some true }
  else {}

/-- Pattern 1 of `_extract_price_parameters`: `giá\s+từ\s*(\d+)\s*đến\s*(\d+)`. -/
def priceRangeKwPat : RE :=
  reSeqs [lit "giá", sPlus, lit "từ", sStar, .grp 1 dPlus, sStar, lit "đến", sStar, .grp 2 dPlus]

/-- Pattern 2: `từ\s*(\d+)\s*đến\s*(\d+)`. -/
def priceRangeBarePat : RE :=
  reSeqs [lit "từ", sStar, .grp 1 dPlus, sStar, lit "đến", sStar, .grp 2 dPlus]

/-- Pattern 3: `giá\s+(dưới|từ|trên|cao hơn|thấp hơn)\s*(\d+)`. -/
def priceSingleKwPat : RE :=
  reSeqs [lit "giá", sPlus, .grp 1 (altLits ["dưới", "từ", "trên", "cao hơn", "thấp hơn"]),
          sStar, .grp 2 dPlus]

/-- Pattern 4: `(dưới|từ|trên)\s*(\d+)\s*VND`. -/
def priceVndPat : RE :=
  reSeqs [.grp 1 (altLits ["dưới", "từ", "trên"]), sStar, .grp 2 dPlus, sStar, lit "VND"]

/-- Pattern 5: `(trên|cao hơn)\s*(\d+)`. -/
def priceAbovePat : RE :=
  reSeqs [.grp 1 (altLits ["trên", "cao hơn"]), sStar, .grp 2 dPlus]

/-- Pattern 6: `(dưới|thấp hơn)\s*(\d+)`. -/
def priceBelowPat : RE :=
  reSeqs [.grp 1 (altLits ["dưới", "thấp hơn"]), sStar, .grp 2 dPlus]

/-- `int(group(n))` of a search result. -/
def groupInt (s : List Char) (m : Nat × Nat × Caps) (n : Nat) : Option Int :=
  (groupSlice s m.2.2 n).map (fun d => (natOfDigits d : Int))

/-- `group(n).lower()` of a search result. -/
def groupLower (s : List Char) (m : Nat × Nat × Caps) (n : Nat) : String :=
  String.mk (((groupSlice s m.2.2 n).getD []).map charLower)

/-- `IntentClassifier._extract_price_parameters` (`nlp_processor.py`
543-595): the six patterns tried in order, first match wins; the result is
`price_range` as `(min_price | None, max_price | None)`, or no parameter. -/
def extract_price_parameters (text : String) : Option (Option Int × Option Int) :=
  let s := text.toList
  match reSearch s priceRangeKwPat with
  | some m => some (groupInt s m 1, groupInt s m 2)
  | none =>
  match reSearch s priceRangeBarePat with
  | some m => some (groupInt s m 1, groupInt s m 2)
  | none =>
  match reSearch s priceSingleKwPat with
  | some m =>
    let keyword := groupLower s m 1
    if keyword = "dưới" ∨ keyword = "thấp hơn" then some (none, groupInt s m 2)
    else if keyword = "từ" ∨ keyword = "trên" ∨ keyword = "cao hơn" then
      some (groupInt s m 2, none)
    else none
  | none =>
  match reSearch s priceVndPat with
  | some m =>
    let keyword := groupLower s m 1
    if keyword = "dưới" then some (none, groupInt s m 2)
    else if keyword = "từ" ∨ keyword = "trên" then some (groupInt s m 2, none)
    else none
  | none =>
  match reSearch s priceAbovePat with
  | some m => some (groupInt s m 2, none)
  | none =>
  match reSearch s priceBelowPat with
  | some m => some (none, groupInt s m 2)
  | none => none

/-- `IntentClassifier._extract_author_parameters` (the `print` calls of the
source are side effects with no bearing on the returned value). -/
def extract_author_parameters (text : String) : Parameters :=
  let s := text.toList
  let authorPat : RE :=
    reSeqs [.grp 1 (altLits ["tác giả", "sách của", "viết bởi"]), sPlus,
            .grp 2 wsPlusLazy,
            reAlts [.seq sPlus (.seq (altLits ["có", "không"]) .wb), chr '?', .eos]]
  match reSearch s authorPat with
  | some m => { author := (groupSlice s m.2.2 2).map (fun a => pyStrip (String.mk a)) }
  | none =>
    let words := pyWords text
    if words.length > 1 then
      let words :=
        if ["sách", "cuốn", "quyển"].contains (pyLower (words.headD "")) then words.drop 1
        else words
      if words.length ≥ 2 then { author := some (String.intercalate " " words) }
      else if words.length = 1 then { author := words.head? }
      else {}
    else {}

/-- `IntentClassifier._extract_category_parameters`. -/
def extract_category_parameters (text : String) : Parameters :=
  let s := text.toList
  let categoryPat : RE :=
    reSeqs [.grp 1 (altLits ["sách về", "thể loại", "loại"]), sPlus,
            .grp 2 wsPlusLazy,
            reAlts [.seq sPlus (.seq (altLits ["có", "những", "cuốn", "gì"]) .wb),
                    chr '?', .eos]]
  match reSearch s categoryPat with
  | some m => { category := (groupSlice s m.2.2 2).map (fun a => pyStrip (String.mk a)) }
  | none =>
    let words := pyWords text
    if words.length > 1 then
      { category := some (String.intercalate " " (words.drop (words.length - 2))) }
    else {}

/-- `IntentClassifier._extract_parameters` dispatcher. -/
def extract_parameters (text : String) (intent : IntentType) : Parameters :=
  match intent with
  | .ORDER => extract_order_parameters text
  | .QUERY => extract_query_parameters text
  | .SEARCH_BY_PRICE => { price_range := extract_price_parameters text }
  | .SEARCH_BY_AUTHOR => extract_author_parameters text
  | .SEARCH_BY_CATEGORY => extract_category_parameters text
  | .RECOMMEND_BY_PRICE => { price_range := extract_price_parameters text }
  | _ => {}

structure IntentResult where
  intent : IntentType
  confidence : ℚ
  entities : List ExtractedEntity
  parameters : Parameters
  original_text : String
  sentiment : Option SentimentType := none
  deriving DecidableEq, Repr

/-- All `(intent, match start, match end)` triples produced by iterating
the sorted intents, their patterns and `re.finditer`, in evaluation order. -/
def allCandidates (s : List Char) : List (IntentType × Nat × Nat) :=
  sorted_intents.flatMap (fun ip =>
    ip.2.flatMap (fun pat => (reFindIter s pat).map (fun m => (ip.1, m.1, m.2.1))))

/-- Running best of the classification loop. -/
structure BestState where
  intent : IntentType
  conf : ℚ
  ents : List ExtractedEntity
  deriving Repr

/-- One iteration of the inner loop of `classify_intent`: replace the best
on strictly greater adjusted confidence, recording the entity (raw
confidence) unless one with the same matched text is already present. -/
def classifyStep (s : List Char) (st : BestState) (c : IntentType × Nat × Nat) : BestState :=
  let confidence := calculate_confidence s c.2.1 c.2.2
  let adjusted := confidence + (intent_priority c.1 : ℚ) * (1/100)
  if st.conf < adjusted then
    { intent := c.1, conf := adjusted,
      ents :=
        let value := String.mk (sliceList s c.2.1 c.2.2)
        if st.ents.any (fun e => e.value = value) then st.ents
        else st.ents ++ [{ value := value, confidence := confidence,
                           start_pos := c.2.1, end_pos := c.2.2,
                           entity_type := intentValue c.1 }] }
  else st

/-- `IntentClassifier.classify_intent` (`nlp_processor.py` 399-464). -/
def classify_intent (text : String) : IntentResult :=
  if text = "" then
    { intent := .UNKNOWN, confidence := 0, entities := [], parameters := {},
      original_text := text }
  else
    let expanded := expand_synonyms (normalize_text text)
    let s := expanded.toList
    let best := (allCandidates s).foldl (classifyStep s) ⟨.UNKNOWN, 0, []⟩
    { intent := best.intent, confidence := best.conf, entities := best.ents,
      parameters := extract_parameters expanded best.intent,
      original_text := text }

/-! ### SessionManager (`session_manager.py`)

`datetime.now()` becomes an explicit `now : Nat` (seconds); the sessions
dict becomes an association list keyed by session id (Python dict keys are
unique; insertion order is preserved). -/

inductive OrderState where
  | NONE | WAITING_QUANTITY | WAITING_ADDRESS_PHONE | CONFIRMING_ORDER
  | PROCESSING_ORDER | ORDER_COMPLETED | ORDER_CANCELLED
  deriving DecidableEq, Repr

structure OrderData where
  book_id : String
  book_title : String
  price : Int
  quantity : Int
  customer_name : String
  phone : String
  address : String
  total_price : Int
  created_at : Nat
  updated_at : Nat
  deriving DecidableEq, Repr

structure SessionData where
  session_id : String
  user_id : String
  session_type : String
  order_state : OrderState
  order_data : Option OrderData
  conversation_history : List (String × String)
  context : List (String × String)
  created_at : Nat
  updated_at : Nat
  expires_at : Nat
  deriving DecidableEq, Repr

structure SMState where
  sessions : List (String × SessionData)
  session_timeout : Nat := 3600
  cleanup_interval : Nat := 300
  last_cleanup : Nat
  deriving DecidableEq, Repr

/-- `session_id in self.sessions` / `self.sessions[session_id]`. -/
def lookupSession (m : SMState) (sid : String) : Option SessionData :=
  (m.sessions.find? (fun e => e.1 = sid)).map (·.2)

/-- Replace the stored session `sid` by `f` applied to it (in-place dict
entry mutation). -/
def mapSessionState (sid : String) (f : SessionData → SessionData) (m : SMState) : SMState :=
  { m with sessions := m.sessions.map (fun e => if e.1 = sid then (e.1, f e.2) else e) }

/-- `SessionManager.delete_session`. -/
def delete_session (sid : String) (m : SMState) : Bool × SMState :=
  if (lookupSession m sid).isSome then
    (true, { m with sessions := m.sessions.filter (fun e => ¬(e.1 = sid)) })
  else (false, m)

/-- `SessionManager.get_session` (`session_manager.py` 90-104): `none` for
unknown ids, lazy deletion when expired, otherwise refresh `updated_at`. -/
def get_session (now : Nat) (sid : String) (m : SMState) : Option SessionData × SMState :=
  match lookupSession m sid with
  | none => (none, m)
  | some s =>
    if s.expires_at < now then (none, (delete_session sid m).2)
    else (some { s with updated_at := now },
          mapSessionState sid (fun t => { t with updated_at := now }) m)

/-- `SessionManager.update_session` with the given field assignments `f`
(the `kwargs` of a concrete call site): presence-checked, then the fields
are set and `updated_at` refreshed. -/
def update_session (now : Nat) (sid : String) (f : SessionData → SessionData)
    (m : SMState) : Bool × SMState :=
  if (lookupSession m sid).isSome then
    (true, mapSessionState sid (fun s => { f s with updated_at := now }) m)
  else (false, m)

/-- `SessionManager.set_order_state`. -/
def set_order_state (now : Nat) (sid : String) (st : OrderState) (m : SMState) :
    Bool × SMState :=
  update_session now sid (fun s => { s with order_state := st }) m

/-- `SessionManager.set_order_data`. -/
def set_order_data (now : Nat) (sid : String) (od : OrderData) (m : SMState) :
    Bool × SMState :=
  update_session now sid (fun s => { s with order_data := some od }) m

/-- `SessionManager.get_order_data`. -/
def get_order_data (now : Nat) (sid : String) (m : SMState) :
    Option OrderData × SMState :=
  let r := get_session now sid m
  (r.1.bind (·.order_data), r.2)

/-- `SessionManager.update_order_data` with field assignments `g`: goes
through `get_session`, requires an order draft, then mutates the draft
(refreshing both `updated_at` stamps). -/
def update_order_data (now : Nat) (sid : String) (g : OrderData → OrderData)
    (m : SMState) : Bool × SMState :=
  let r := get_session now sid m
  match r.1 with
  | none => (false, r.2)
  | some s =>
    match s.order_data with
    | none => (false, r.2)
    | some od =>
      (true, mapSessionState sid
        (fun t => { t with order_data := some { g od with updated_at := now },
                           updated_at := now }) r.2)

/-- `SessionManager.clear_order_data`. -/
def clear_order_data (now : Nat) (sid : String) (m : SMState) : Bool × SMState :=
  update_session now sid (fun s => { s with order_data := none, order_state := .NONE }) m

/-- `SessionManager.cleanup_expired_sessions` (`session_manager.py`
218-235); `(current_time - last_cleanup).seconds` is the seconds *component*
of the timedelta, i.e. the elapsed seconds modulo one day. -/
def cleanup_expired_sessions (now : Nat) (m : SMState) : SMState :=
  if (now - m.last_cleanup) % 86400 < m.cleanup_interval then m
  else { m with sessions := m.sessions.filter (fun e => ¬(e.2.expires_at < now)),
                last_cleanup := now }

structure SessionStatistics where
  total_sessions : Nat
  active_sessions : Nat
  order_sessions : Nat
  expired_sessions : Nat
  deriving DecidableEq, Repr

/-- `SessionManager.get_session_statistics` (`session_manager.py` 237-256). -/
def get_session_statistics (now : Nat) (m : SMState) : SessionStatistics × SMState :=
  let m1 := cleanup_expired_sessions now m
  let total := m1.sessions.length
  let active := (m1.sessions.filter (fun e => now ≤ e.2.expires_at)).length
  let order := (m1.sessions.filter
    (fun e => now ≤ e.2.expires_at ∧ e.2.order_state ≠ .NONE)).length
  ({ total_sessions := total, active_sessions := active, order_sessions := order,
     expired_sessions := total - active }, m1)

/-! ### OrderFlowManager and the chatbot quantity step -/

/-- `f"{amount:,}".replace(",", ".") + " VND"`. -/
def insertDotsAux : Nat → List Char → List Char
  | _, [] => []
  | cnt, c :: rest =>
    if cnt = 3 then '.' :: c :: insertDotsAux 1 rest
    else c :: insertDotsAux (cnt + 1) rest

def format_currency (amount : Int) : String :=
  let digits := Nat.toDigits 10 amount.natAbs
  let grouped := (insertDotsAux 0 digits.reverse).reverse
  (if amount < 0 then "-" else "") ++ String.mk grouped ++ " VND"

/-- The book dict passed to `start_order` (`book_id`, `title`, `price`). -/
structure BookData where
  book_id : String
  title : String
  price : Int
  deriving DecidableEq, Repr

/-- The result dict of the `OrderFlowManager` steps. -/
structure FlowResult where
  status : String
  message : String
  action : Option String := none
  order_data : Option OrderData := none
  deriving DecidableEq, Repr

/-- The `OrderData` created by `start_order`: quantity 1, total = unit
price, the defaulted customer fields. -/
def start_order_draft (now : Nat) (book : BookData) : OrderData :=
  { book_id := book.book_id, book_title := book.title, price := book.price,
    quantity := 1, customer_name := "Khách hàng", phone := "", address := "",
    total_price := book.price, created_at := now, updated_at := now }

/-- `OrderFlowManager.start_order` (`session_manager.py` 293-317). -/
def start_order (now : Nat) (sid : String) (book : BookData) (m : SMState) :
    FlowResult × SMState :=
  let order_data : OrderData := start_order_draft now book
  let r1 := set_order_data now sid order_data m
  let r2 := set_order_state now sid .WAITING_QUANTITY r1.2
  ({ status := "success",
     message := "Sách \x27" ++ book.title ++ "\x27 giá " ++ format_currency book.price
       ++ ". Vui lòng nhập số lượng.",
     order_data := some order_data }, r2.2)

/-- `OrderFlowManager.process_quantity` (`session_manager.py` 319-339):
store the quantity, recompute the total, advance to
`WAITING_ADDRESS_PHONE`.  The draft returned in the response is the stored
(mutable, hence fully updated) draft object. -/
def process_quantity (now : Nat) (sid : String) (quantity : Int) (m : SMState) :
    FlowResult × SMState :=
  let r1 := update_order_data now sid (fun od => { od with quantity := quantity }) m
  if !r1.1 then ({ status := "error", message := "Không thể cập nhật số lượng." }, r1.2)
  else
    let r2 := get_order_data now sid r1.2
    match r2.1 with
    | some od =>
      let total_price := od.price * quantity
      let r3 := update_order_data now sid (fun o => { o with total_price := total_price }) r2.2
      let r4 := set_order_state now sid .WAITING_ADDRESS_PHONE r3.2
      ({ status := "success",
         message := "Số lượng: " ++ toString quantity ++ ". Tổng tiền: "
           ++ format_currency total_price
           ++ ". Vui lòng nhập địa chỉ giao hàng và số điện thoại (ví dụ: \x27123 Hà Nội, 0987654321\x27).",
         order_data := some { od with total_price := total_price, updated_at := now } }, r4.2)
    | none => ({ status := "error", message := "Không tìm thấy thông tin đơn hàng." }, r2.2)

/-- `OrderFlowManager.confirm_order` (`session_manager.py` 359-374). -/
def confirm_order (now : Nat) (sid : String) (confirmed : Bool) (m : SMState) :
    FlowResult × SMState :=
  if confirmed then
    let r := set_order_state now sid .PROCESSING_ORDER m
    ({ status := "success", message := "Đơn hàng đã được xác nhận. Đang xử lý...",
       action := some "process_order" }, r.2)
  else
    let r := clear_order_data now sid m
    ({ status := "success", message := "Đã hủy đơn hàng.",
       action := some "order_cancelled" }, r.2)

/-- `EntityExtractor.extract_quantity` (`nlp_processor.py` 762-765). -/
def extract_quantity (text : String) : Option Nat := firstStandaloneInt text

/-- The response dict of the chatbot handlers (`data` carries the draft). -/
structure ChatResponse where
  message : String
  intent : String
  data : Option OrderData := none
  deriving DecidableEq, Repr

/-- `OptimizedChatbot._handle_quantity_input` (`chatbot.py` 96-111):
extract the first standalone integer; only a truthy (`quantity and
quantity > 0`) value reaches `process_quantity`, anything else gets the
retry prompt and leaves the manager untouched. -/
def handle_quantity_input (now : Nat) (user_input : String) (sid : String)
    (m : SMState) : ChatResponse × SMState :=
  match extract_quantity user_input with
  | some q =>
    if 0 < q then
      let r := process_quantity now sid (q : Int) m
      ({ message := r.1.message, intent := "order_quantity", data := r.1.order_data }, r.2)
    else
      ({ message := "Vui lòng nhập số lượng hợp lệ (ví dụ: \x272\x27).",
         intent := "order_quantity_error" }, m)
  | none =>
    ({ message := "Vui lòng nhập số lượng hợp lệ (ví dụ: \x272\x27).",
       intent := "order_quantity_error" }, m)

/-! ### Concrete fixtures for counterexamples and witnesses -/

/-- A draft as created by `start_order` for a 150000-VND book. -/
def gileadDraft : OrderData :=
  { book_id := "b1", book_title := "Gilead", price := 150000, quantity := 1,
    customer_name := "Khách hàng", phone := "", address := "",
    total_price := 150000, created_at := 0, updated_at := 0 }

/-- A session waiting for the order quantity, expiring at time 1000. -/
def sessionWaitingQty : SessionData :=
  { session_id := "s1", user_id := "u1", session_type := "chat",
    order_state := .WAITING_QUANTITY, order_data := some gileadDraft,
    conversation_history := [], context := [], created_at := 0, updated_at := 0,
    expires_at := 1000 }

/-- A one-session manager state mid-flow. -/
def mgrWaitingQty : SMState := { sessions := [("s1", sessionWaitingQty)], last_cleanup := 0 }

/-- The same session at the confirmation step. -/
def sessionConfirming : SessionData := { sessionWaitingQty with order_state := .CONFIRMING_ORDER }

def mgrConfirming : SMState := { sessions := [("s1", sessionConfirming)], last_cleanup := 0 }

/-- An idle session with no draft. -/
def sessionIdle : SessionData := { sessionWaitingQty with order_state := .NONE, order_data := none }

def mgrIdle : SMState := { sessions := [("s1", sessionIdle)], last_cleanup := 0 }

/-- A manager holding one expired session (expiry 1000 < now = 2000 in the
C9 witness). -/
def mgrExpired : SMState := { sessions := [("s1", sessionIdle)], last_cleanup := 0 }

/-- Invariant predicate of whitespace-collapsed text: no two adjacent
whitespace characters. -/
def spacedApart (a b : Char) : Prop := isSpacePy a = false ∨ isSpacePy b = false

/-! ## Theorems -/

/-! ### Association-list helper lemmas for the session store -/

theorem find?_entry_map (l : List (String × SessionData)) (sid : String)
    (f : SessionData → SessionData) :
    (l.map (fun e => if e.1 = sid then (e.1, f e.2) else e)).find? (fun e => e.1 = sid) =
      (l.find? (fun e => e.1 = sid)).map (fun e => (e.1, f e.2)) := by
  induction l with
  | nil => rfl
  | cons e rest ih =>
    by_cases h : e.1 = sid
    · simp [List.find?_cons_of_pos, h]
    · simp only [List.map_cons, if_neg h]
      rw [List.find?_cons_of_neg _ (by simpa using h), List.find?_cons_of_neg _ (by simpa using h)]
      exact ih

theorem lookupSession_mapSession (m : SMState) (sid : String) (f : SessionData → SessionData) :
    lookupSession (mapSessionState sid f m) sid = (lookupSession m sid).map f := by
  unfold lookupSession mapSessionState
  rw [find?_entry_map]
  cases h : m.sessions.find? (fun e => e.1 = sid) with
  | none => rfl
  | some e => rfl

theorem lookupSession_mapSession_some {m : SMState} {sid : String} {s : SessionData}
    (f : SessionData → SessionData) (h : lookupSession m sid = some s) :
    lookupSession (mapSessionState sid f m) sid = some (f s) := by
  rw [lookupSession_mapSession, h]; rfl

theorem update_session_of_some {m : SMState} {sid : String} {s : SessionData}
    (now : Nat) (f : SessionData → SessionData) (h : lookupSession m sid = some s) :
    update_session now sid f m =
      (true, mapSessionState sid (fun t => { f t with updated_at := now }) m) := by
  simp [update_session, h]

theorem get_session_of_fresh {m : SMState} {sid : String} {s : SessionData} (now : Nat)
    (h : lookupSession m sid = some s) (hexp : ¬ s.expires_at < now) :
    get_session now sid m = (some { s with updated_at := now },
      mapSessionState sid (fun t => { t with updated_at := now }) m) := by
  simp [get_session, h, hexp]

theorem update_order_data_of_some {m : SMState} {sid : String} {s : SessionData}
    {od : OrderData} (now : Nat) (g : OrderData → OrderData)
    (h : lookupSession m sid = some s) (hexp : ¬ s.expires_at < now)
    (hod : s.order_data = some od) :
    update_order_data now sid g m =
      (true, mapSessionState sid
        (fun t => { t with order_data := some { g od with updated_at := now },
                           updated_at := now })
        (mapSessionState sid (fun t => { t with updated_at := now }) m)) := by
  unfold update_order_data
  rw [get_session_of_fresh now h hexp]
  simp only []
  have : ({ s with updated_at := now } : SessionData).order_data = some od := hod
  rw [this]

/-- After `start_order` on a stored session, the store holds the fresh
draft and the `WAITING_QUANTITY` state. -/
theorem start_order_state (now : Nat) (sid : String) (book : BookData) (m : SMState)
    (s : SessionData) (hs : lookupSession m sid = some s) :
    lookupSession (start_order now sid book m).2 sid =
      some { s with order_data := some (start_order_draft now book),
                    order_state := .WAITING_QUANTITY, updated_at := now } := by
  simp only [start_order, set_order_data, set_order_state]
  rw [update_session_of_some now _ hs]
  simp only []
  rw [update_session_of_some now _ (lookupSession_mapSession_some _ hs)]
  simp only []
  exact lookupSession_mapSession_some _ (lookupSession_mapSession_some _ hs)

/-- After `process_quantity` on a stored session holding a draft, the store
holds quantity `q`, total `od.price * q` and the `WAITING_ADDRESS_PHONE`
state. -/
theorem process_quantity_lookup (now : Nat) (sid : String) (q : Int) (m : SMState)
    (s : SessionData) (od : OrderData) (hs : lookupSession m sid = some s)
    (hexp : ¬ s.expires_at < now) (hod : s.order_data = some od) :
    lookupSession (process_quantity now sid q m).2 sid =
      some { s with
        order_data := some { od with quantity := q, total_price := od.price * q, updated_at := now },
        order_state := .WAITING_ADDRESS_PHONE, updated_at := now } := by
  unfold process_quantity
  rw [update_order_data_of_some now _ hs hexp hod]
  simp only [Bool.not_true, Bool.false_eq_true, if_false, get_order_data]
  rw [get_session_of_fresh now
    (lookupSession_mapSession_some _ (lookupSession_mapSession_some _ hs)) hexp]
  simp only [Option.some_bind]
  rw [update_order_data_of_some now _
    (lookupSession_mapSession_some _
      (lookupSession_mapSession_some _ (lookupSession_mapSession_some _ hs)))
    hexp rfl]
  simp only [set_order_state]
  rw [update_session_of_some now _
    (lookupSession_mapSession_some _ (lookupSession_mapSession_some _
      (lookupSession_mapSession_some _ (lookupSession_mapSession_some _
        (lookupSession_mapSession_some _ hs)))))]
  simp only []
  exact lookupSession_mapSession_some _ (lookupSession_mapSession_some _
    (lookupSession_mapSession_some _ (lookupSession_mapSession_some _
      (lookupSession_mapSession_some _ (lookupSession_mapSession_some _ hs)))))

/-! ### C4: start_order / process_quantity compute the total -/

/-- C4: for every stored, unexpired session and every book reference with
unit price `p`, `start_order` creates a draft with quantity 1 and total `p`
and moves the state to `WAITING_QUANTITY`; a subsequent
`process_quantity q` with `q > 0` stores quantity `q`, recomputes the total
to `p * q`, and transitions to `WAITING_ADDRESS_PHONE`. -/
theorem c4_order_flow_total_price (now : Nat) (sid : String) (book : BookData) (q : Int)
    (m : SMState) (s : SessionData) (hs : lookupSession m sid = some s)
    (hexp : ¬ s.expires_at < now) (hq : 0 < q) :
    (∃ s1, lookupSession (start_order now sid book m).2 sid = some s1 ∧
      s1.order_state = .WAITING_QUANTITY ∧
      ∃ od1, s1.order_data = some od1 ∧ od1.quantity = 1 ∧ od1.total_price = book.price) ∧
    (∃ s2, lookupSession (process_quantity now sid q (start_order now sid book m).2).2 sid
        = some s2 ∧
      s2.order_state = .WAITING_ADDRESS_PHONE ∧
      ∃ od2, s2.order_data = some od2 ∧ od2.quantity = q ∧
        od2.total_price = book.price * q) := by
  constructor
  · exact ⟨_, start_order_state now sid book m s hs, rfl, _, rfl, rfl, rfl⟩
  · exact ⟨_, process_quantity_lookup now sid q _ _ _
      (start_order_state now sid book m s hs) hexp rfl, rfl, _, rfl, rfl, rfl⟩

/-- C4 witness: unit price 150000 and quantity 3 give total 450000. -/
theorem c4_witness :
    ∃ s2, lookupSession (process_quantity 5 "s1" 3
        (start_order 5 "s1" { book_id := "b1", title := "Gilead", price := 150000 }
          mgrIdle).2).2 "s1" = some s2 ∧
      s2.order_state = .WAITING_ADDRESS_PHONE ∧
      ∃ od2, s2.order_data = some od2 ∧ od2.quantity = 3 ∧ od2.total_price = 450000 :=
  (c4_order_flow_total_price 5 "s1" { book_id := "b1", title := "Gilead", price := 150000 }
    3 mgrIdle sessionIdle (by decide!) (by decide!) (by decide!)).2

/-! ### C9: expired sessions are inaccessible and not counted -/

theorem lookupSession_delete (m : SMState) (sid : String) :
    lookupSession { m with sessions := m.sessions.filter (fun e => ¬(e.1 = sid)) } sid
      = none := by
  unfold lookupSession
  rw [List.find?_eq_none.mpr]
  · rfl
  · intro x hx
    rcases List.mem_filter.mp hx with ⟨-, hq⟩
    simpa using hq

/-- With unique keys, every entry keyed `sid` carries the looked-up value. -/
theorem entries_eq_of_nodup {l : List (String × SessionData)} {sid : String} {s : SessionData}
    (hnd : (l.map Prod.fst).Nodup)
    (hs : (l.find? (fun e => e.1 = sid)).map (·.2) = some s) :
    ∀ e ∈ l, e.1 = sid → e.2 = s := by
  induction l with
  | nil => simp at hs
  | cons a rest ih =>
    simp only [List.map_cons, List.nodup_cons] at hnd
    by_cases ha : a.1 = sid
    · rw [List.find?_cons_of_pos _ (by simpa using ha)] at hs
      have has : a.2 = s := by simpa using hs
      intro e he hesid
      rcases List.mem_cons.mp he with rfl | hmem
      · exact has
      · refine absurd ?_ hnd.1
        rw [ha, ← hesid]
        exact List.mem_map_of_mem Prod.fst hmem
    · rw [List.find?_cons_of_neg _ (by simpa using ha)] at hs
      intro e he hesid
      rcases List.mem_cons.mp he with rfl | hmem
      · exact absurd hesid ha
      · exact ih hnd.2 hs e hmem hesid

/-- Dropping elements that anyway fail `p` does not change a `p`-filter. -/
theorem filter_filter_out {α : Type} (p q : α → Bool) (l : List α)
    (h : ∀ e ∈ l, q e = false → p e = false) :
    l.filter p = (l.filter q).filter p := by
  induction l with
  | nil => rfl
  | cons a rest ih =>
    have hrest : ∀ e ∈ rest, q e = false → p e = false :=
      fun e he => h e (List.mem_cons_of_mem _ he)
    cases hq : q a
    · have hp := h a (List.mem_cons_self _ _) hq
      simp [List.filter_cons, hq, hp, ih hrest]
    · cases hp : p a <;> simp [List.filter_cons, hq, hp, ih hrest]

/-- C9: a stored session whose expiry timestamp is earlier than the current
time is inaccessible - `get_session` returns `none` and deletes it - and it
is not counted among the active sessions of `get_session_statistics`:
deleting it beforehand leaves the reported `active_sessions` unchanged.
(Key uniqueness is the dict invariant of the Python sessions map.) -/
theorem c9_expired_session_inaccessible (now : Nat) (sid : String) (m : SMState)
    (s : SessionData) (hnd : (m.sessions.map Prod.fst).Nodup)
    (hs : lookupSession m sid = some s) (hexp : s.expires_at < now) :
    (get_session now sid m).1 = none ∧
    lookupSession (get_session now sid m).2 sid = none ∧
    (get_session_statistics now m).1.active_sessions =
      (get_session_statistics now (delete_session sid m).2).1.active_sessions := by
  have hall : ∀ e ∈ m.sessions, e.1 = sid → e.2 = s := entries_eq_of_nodup hnd hs
  have hdel : (delete_session sid m).2 =
      { m with sessions := m.sessions.filter (fun e => ¬(e.1 = sid)) } := by
    simp [delete_session, hs]
  refine ⟨by simp [get_session, hs, hexp], ?_, ?_⟩
  · have : (get_session now sid m).2 = (delete_session sid m).2 := by
      simp [get_session, hs, hexp]
    rw [this, hdel]
    exact lookupSession_delete m sid
  · rw [hdel]
    have hout : ∀ e ∈ m.sessions,
        (fun (e : String × SessionData) => decide ¬(e.1 = sid)) e = false →
        (fun (e : String × SessionData) => decide (now ≤ e.2.expires_at)) e = false := by
      intro e he hq
      simp only [decide_eq_false_iff_not, Decidable.not_not] at hq
      have := hall e he hq
      simp [this, Nat.not_le.mpr hexp]
    have hkeep : ∀ e ∈ m.sessions,
        (fun (e : String × SessionData) => decide ¬(e.1 = sid)) e = false →
        (fun (e : String × SessionData) => decide ¬(e.2.expires_at < now)) e = false := by
      intro e he hq
      simp only [decide_eq_false_iff_not, Decidable.not_not] at hq
      have := hall e he hq
      simp [this, hexp]
    unfold get_session_statistics cleanup_expired_sessions
    by_cases hcl : (now - m.last_cleanup) % 86400 < m.cleanup_interval
    · simp only [if_pos hcl]
      exact congrArg List.length (filter_filter_out _ _ _ hout)
    · simp only [if_neg hcl]
      exact congrArg (fun l => (List.filter (fun e => decide (now ≤ e.2.expires_at)) l).length)
        (filter_filter_out _ _ _ hkeep)

/-- C9 witness: a session that expired at time 1000, inspected at time
2000. -/
theorem c9_witness :
    (get_session 2000 "s1" mgrExpired).1 = none ∧
    lookupSession (get_session 2000 "s1" mgrExpired).2 "s1" = none ∧
    (get_session_statistics 2000 mgrExpired).1.active_sessions =
      (get_session_statistics 2000 (delete_session "s1" mgrExpired).2).1.active_sessions :=
  c9_expired_session_inaccessible 2000 "s1" mgrExpired sessionIdle
    (by decide!) (by decide!) (by decide!)

/-! ### C5: cancelling at the confirmation step clears the draft -/

/-- C5: for every stored session (in state `CONFIRMING_ORDER`),
`confirm_order` with `yes = false` clears the order draft and returns the
order state to `NONE`. -/
theorem c5_confirm_order_no_clears_draft (now : Nat) (sid : String) (m : SMState)
    (s : SessionData) (hs : lookupSession m sid = some s)
    (hstate : s.order_state = .CONFIRMING_ORDER) :
    ∃ s2, lookupSession (confirm_order now sid false m).2 sid = some s2 ∧
      s2.order_data = none ∧ s2.order_state = .NONE := by
  refine ⟨{ s with order_data := none, order_state := .NONE, updated_at := now }, ?_, rfl, rfl⟩
  simp only [confirm_order, Bool.false_eq_true, if_false, clear_order_data]
  rw [update_session_of_some now _ hs]
  exact lookupSession_mapSession_some _ hs

/-- C5 witness: cancelling the concrete confirming session. -/
theorem c5_witness :
    lookupSession mgrConfirming "s1" = some sessionConfirming ∧
    ∃ s2, lookupSession (confirm_order 5 "s1" false mgrConfirming).2 "s1" = some s2 ∧
      s2.order_data = none ∧ s2.order_state = .NONE :=
  ⟨by decide!,
   c5_confirm_order_no_clears_draft 5 "s1" mgrConfirming sessionConfirming
     (by decide!) (by decide!)⟩

/-! ### C10: expand_synonyms is not idempotent -/

/-- C10: `expand_synonyms` is not idempotent: the whole word "loại" inside
the canonical phrase "thể loại" is itself a synonym of "thể loại", so
`expand_synonyms "thể loại" = "thể thể loại"`, and applying
`expand_synonyms` twice to "thể loại" differs from applying it once. -/
theorem c10_expand_synonyms_not_idempotent :
    expand_synonyms "thể loại" = "thể thể loại" ∧
    expand_synonyms (expand_synonyms "thể loại") ≠ expand_synonyms "thể loại" := by
  decide!

/-! ### C1: the non-positive-quantity guard -/

/-- C1 counterexample: a session in `WAITING_QUANTITY` holding a draft
(price 150000, quantity 1): calling `process_quantity` with quantity `0`
does *not* leave the state and draft unchanged - it stores quantity 0,
recomputes the total to 0 and advances to `WAITING_ADDRESS_PHONE`, because
`OrderFlowManager.process_quantity` itself contains no state or positivity
check. -/
theorem c1_counterexample :
    sessionWaitingQty.order_state = .WAITING_QUANTITY ∧
    (lookupSession (process_quantity 5 "s1" 0 mgrWaitingQty).2 "s1").map
      (fun s => (s.order_state, s.order_data.map (fun o => (o.quantity, o.total_price))))
      = some (.WAITING_ADDRESS_PHONE, some (0, 0)) := by
  decide!

/-- C1 (amended): the rejection of non-positive quantity input lives in the
chatbot's quantity-step handler, not in `process_quantity`: whenever the
extracted quantity is absent or `0` (`quantity and quantity > 0` is falsy),
`_handle_quantity_input` returns the retry prompt with intent
`order_quantity_error` and leaves the session manager - hence the order
state and the draft - completely unchanged. -/
theorem c1_handler_rejects_nonpositive (now : Nat) (input sid : String) (m : SMState)
    (h : extract_quantity input = none ∨ extract_quantity input = some 0) :
    handle_quantity_input now input sid m =
      ({ message := "Vui lòng nhập số lượng hợp lệ (ví dụ: \x272\x27).",
         intent := "order_quantity_error" }, m) := by
  rcases h with h | h <;> simp [handle_quantity_input, h]

/-- C1 witness: the word "không" contains no digits, and the handler leaves
the mid-flow manager state untouched. -/
theorem c1_witness :
    extract_quantity "không" = none ∧
    handle_quantity_input 5 "không" "s1" mgrWaitingQty =
      ({ message := "Vui lòng nhập số lượng hợp lệ (ví dụ: \x272\x27).",
         intent := "order_quantity_error" }, mgrWaitingQty) :=
  ⟨by decide!,
   c1_handler_rejects_nonpositive 5 "không" "s1" mgrWaitingQty
     (Or.inl (by decide!))⟩

/-! ### C2 / C3: the recorded confidence includes the priority bonus -/

/-- C2 counterexample: for "đặt mua sách" the winning ORDER match has raw
confidence 1 (recorded on the entity), but the result's confidence field is
11/10 = 1 + 10 * 0.01: the priority bonus *is* recorded in the result. -/
theorem c2_counterexample :
    (classify_intent "đặt mua sách").intent = .ORDER ∧
    (classify_intent "đặt mua sách").confidence = 11/10 ∧
    (classify_intent "đặt mua sách").entities.map ExtractedEntity.confidence = [1] ∧
    (11 : ℚ)/10 ≠ 1 := by
  decide!

/-- C3 counterexample: the same input produces a result confidence strictly
greater than 1, so the IntentResult confidence does not lie in [0, 1]. -/
theorem c3_counterexample : 1 < (classify_intent "đặt mua sách").confidence := by
  decide!

/-! ### Character-table lemmas -/

theorem lowerTable_facts : ∀ p ∈ lowerTable,
    lowerTable.find? (fun q => q.1 = p.2) = none ∧
    isSpacePy p.1 = false ∧ isSpacePy p.2 = false := by decide

theorem charLower_idem (c : Char) : charLower (charLower c) = charLower c := by
  cases h : lowerTable.find? (fun p => p.1 = c) with
  | none =>
    have h1 : charLower c = c := by simp [charLower, h]
    rw [h1]; exact h1
  | some p =>
    have hp : p ∈ lowerTable := List.mem_of_find?_eq_some h
    have h1 : charLower c = p.2 := by simp [charLower, h]
    rw [h1]
    simp [charLower, (lowerTable_facts p hp).1]

theorem isSpacePy_charLower (c : Char) : isSpacePy (charLower c) = isSpacePy c := by
  cases h : lowerTable.find? (fun p => p.1 = c) with
  | none => simp [charLower, h]
  | some p =>
    have hp : p ∈ lowerTable := List.mem_of_find?_eq_some h
    have hc : p.1 = c := by simpa using List.find?_some h
    have h1 : charLower c = p.2 := by simp [charLower, h]
    rw [h1, (lowerTable_facts p hp).2.2, ← hc, (lowerTable_facts p hp).2.1]

/-! ### C8: idempotence of normalize_text -/

theorem mem_dropWhile {α : Type} {p : α → Bool} {l : List α} {c : α}
    (h : c ∈ l.dropWhile p) : c ∈ l := by
  induction l with
  | nil => simp at h
  | cons a rest ih =>
    rw [List.dropWhile_cons] at h
    by_cases hp : p a = true
    · simp only [if_pos hp] at h
      exact List.mem_cons_of_mem _ (ih h)
    · simp only [if_neg hp] at h
      exact h

theorem mem_pyStripList {l : List Char} {c : Char} (h : c ∈ pyStripList l) : c ∈ l := by
  unfold pyStripList at h
  exact mem_dropWhile (List.mem_reverse.mp (mem_dropWhile (List.mem_reverse.mp h)))

theorem mem_collapseWsAux {l : List Char} {c : Char} :
    ∀ b, c ∈ collapseWsAux b l → c = ' ' ∨ (c ∈ l ∧ isSpacePy c = false) := by
  induction l with
  | nil => intro b h; simp [collapseWsAux] at h
  | cons a rest ih =>
    intro b h
    cases hsp : isSpacePy a
    · rw [show collapseWsAux b (a :: rest) = a :: collapseWsAux false rest from by
        simp [collapseWsAux, hsp]] at h
      rcases List.mem_cons.mp h with rfl | hm
      · exact Or.inr ⟨List.mem_cons_self _ _, hsp⟩
      · rcases ih false hm with h1 | ⟨hmem, hns⟩
        · exact Or.inl h1
        · exact Or.inr ⟨List.mem_cons_of_mem _ hmem, hns⟩
    · cases b
      · rw [show collapseWsAux false (a :: rest) = ' ' :: collapseWsAux true rest from by
          simp [collapseWsAux, hsp]] at h
        rcases List.mem_cons.mp h with rfl | hm
        · exact Or.inl rfl
        · rcases ih true hm with h1 | ⟨hmem, hns⟩
          · exact Or.inl h1
          · exact Or.inr ⟨List.mem_cons_of_mem _ hmem, hns⟩
      · rw [show collapseWsAux true (a :: rest) = collapseWsAux true rest from by
          simp [collapseWsAux, hsp]] at h
        rcases ih true h with h1 | ⟨hmem, hns⟩
        · exact Or.inl h1
        · exact Or.inr ⟨List.mem_cons_of_mem _ hmem, hns⟩

/-- The collapsed text has no two adjacent whitespace characters, and in
continuation mode it cannot start with one. -/
theorem collapse_chain (l : List Char) :
    (∀ b, List.Chain' spacedApart (collapseWsAux b l)) ∧
    (∀ c, (collapseWsAux true l).head? = some c → isSpacePy c = false) := by
  induction l with
  | nil => exact ⟨fun _ => List.chain'_nil, fun c h => by simp [collapseWsAux] at h⟩
  | cons a rest ih =>
    cases hsp : isSpacePy a
    · have he : ∀ b, collapseWsAux b (a :: rest) = a :: collapseWsAux false rest := by
        intro b; simp [collapseWsAux, hsp]
      refine ⟨fun b => ?_, fun c h => ?_⟩
      · rw [he b]
        exact List.chain'_cons'.mpr ⟨fun d _ => Or.inl hsp, ih.1 false⟩
      · rw [he true] at h
        simp only [List.head?_cons, Option.some.injEq] at h
        rw [← h]; exact hsp
    · have het : collapseWsAux true (a :: rest) = collapseWsAux true rest := by
        simp [collapseWsAux, hsp]
      have hef : collapseWsAux false (a :: rest) = ' ' :: collapseWsAux true rest := by
        simp [collapseWsAux, hsp]
      refine ⟨fun b => ?_, fun c h => ?_⟩
      · cases b
        · rw [hef]
          exact List.chain'_cons'.mpr
            ⟨fun d hd => Or.inr (ih.2 d (Option.mem_def.mp hd)), ih.1 true⟩
        · rw [het]; exact ih.1 true
      · rw [het] at h
        exact ih.2 c h

theorem chain'_dropWhile {R : Char → Char → Prop} {p : Char → Bool} {l : List Char}
    (h : List.Chain' R l) : List.Chain' R (l.dropWhile p) := by
  induction l with
  | nil => exact h
  | cons a rest ih =>
    rw [List.dropWhile_cons]
    by_cases hp : p a = true
    · rw [if_pos hp]
      exact ih (List.chain'_cons'.mp h).2
    · rw [if_neg hp]
      exact h

theorem chain'_pyStrip {l : List Char} (h : List.Chain' spacedApart l) :
    List.Chain' spacedApart (pyStripList l) := by
  unfold pyStripList
  have h2 : List.Chain' spacedApart (l.dropWhile isSpacePy).reverse :=
    List.chain'_reverse.mpr ((chain'_dropWhile h).imp fun {a b} hab => Or.symm hab)
  exact List.chain'_reverse.mpr ((chain'_dropWhile h2).imp fun {a b} hab => Or.symm hab)

theorem head?_dropWhile_not {p : Char → Bool} {l : List Char} :
    ∀ c, (l.dropWhile p).head? = some c → p c = false := by
  induction l with
  | nil => intro c h; simp at h
  | cons a rest ih =>
    intro c h
    rw [List.dropWhile_cons] at h
    by_cases hp : p a = true
    · rw [if_pos hp] at h
      exact ih c h
    · rw [if_neg hp] at h
      simp only [List.head?_cons, Option.some.injEq] at h
      rw [← h]
      simpa using hp

theorem getLast?_dropWhile {p : Char → Bool} {l : List Char} (h : l.dropWhile p ≠ []) :
    (l.dropWhile p).getLast? = l.getLast? := by
  induction l with
  | nil => simp at h
  | cons a rest ih =>
    rw [List.dropWhile_cons] at h ⊢
    by_cases hp : p a = true
    · rw [if_pos hp] at h ⊢
      rw [ih h]
      cases rest with
      | nil => simp at h
      | cons b bs => rw [List.getLast?_cons_cons]
    · rw [if_neg hp]

theorem pyStrip_head_not_space {l : List Char} :
    ∀ c, (pyStripList l).head? = some c → isSpacePy c = false := by
  intro c h
  unfold pyStripList at h
  rw [List.head?_reverse] at h
  have hne : (l.dropWhile isSpacePy).reverse.dropWhile isSpacePy ≠ [] := by
    intro he; rw [he] at h; simp at h
  rw [getLast?_dropWhile hne, List.getLast?_reverse] at h
  exact head?_dropWhile_not c h

theorem pyStrip_getLast_not_space {l : List Char} :
    ∀ c, (pyStripList l).getLast? = some c → isSpacePy c = false := by
  intro c h
  unfold pyStripList at h
  rw [List.getLast?_reverse] at h
  exact head?_dropWhile_not c h

theorem dropWhile_eq_self_of_head {p : Char → Bool} {l : List Char}
    (h : ∀ c, l.head? = some c → p c = false) : l.dropWhile p = l := by
  cases l with
  | nil => rfl
  | cons a rest =>
    have := h a rfl
    rw [List.dropWhile_cons, if_neg (by simp [this])]

theorem pyStrip_id {l : List Char}
    (hh : ∀ c, l.head? = some c → isSpacePy c = false)
    (hl : ∀ c, l.getLast? = some c → isSpacePy c = false) : pyStripList l = l := by
  unfold pyStripList
  rw [dropWhile_eq_self_of_head hh,
      dropWhile_eq_self_of_head (fun c h => hl c (by rwa [List.head?_reverse] at h)),
      List.reverse_reverse]

theorem map_id_of_fix {f : Char → Char} {l : List Char} (h : ∀ c ∈ l, f c = c) :
    l.map f = l := by
  induction l with
  | nil => rfl
  | cons a rest ih =>
    rw [List.map_cons, h a (List.mem_cons_self _ _),
        ih (fun c hc => h c (List.mem_cons_of_mem _ hc))]

/-- Text with single-space whitespace and no adjacent spaces is fixed by
whitespace collapsing. -/
theorem collapse_id (l : List Char)
    (hsp : ∀ c ∈ l, isSpacePy c = true → c = ' ')
    (hchain : List.Chain' spacedApart l) :
    collapseWsAux false l = l ∧
    ((∀ c, l.head? = some c → isSpacePy c = false) → collapseWsAux true l = l) := by
  induction l with
  | nil => exact ⟨rfl, fun _ => rfl⟩
  | cons a rest ih =>
    have hrest_sp : ∀ c ∈ rest, isSpacePy c = true → c = ' ' :=
      fun c hc => hsp c (List.mem_cons_of_mem _ hc)
    have hchain_rest : List.Chain' spacedApart rest := (List.chain'_cons'.mp hchain).2
    have ihr := ih hrest_sp hchain_rest
    cases ha : isSpacePy a
    · have he : ∀ b, collapseWsAux b (a :: rest) = a :: collapseWsAux false rest := by
        intro b; simp [collapseWsAux, ha]
      exact ⟨by rw [he false, ihr.1], fun _ => by rw [he true, ihr.1]⟩
    · have ha2 : a = ' ' := hsp a (List.mem_cons_self _ _) ha
      have hrest_head : ∀ c, rest.head? = some c → isSpacePy c = false := by
        intro c hc
        rcases (List.chain'_cons'.mp hchain).1 c (Option.mem_def.mpr hc) with h1 | h2
        · simp [ha] at h1
        · exact h2
      constructor
      · rw [show collapseWsAux false (a :: rest) = ' ' :: collapseWsAux true rest from by
          simp [collapseWsAux, ha]]
        rw [ihr.2 hrest_head, ha2]
      · intro hhead
        have := hhead a rfl
        simp [ha] at this

/-- The output of one `normalize_text` pass: every character is lower-case
fixed, inside the allowlist, and the only whitespace is single interior
spaces. -/
theorem normalizeList_facts (x : List Char) :
    (∀ c ∈ normalizeList x,
      charLower c = c ∧ isAllowedChar c = true ∧ (isSpacePy c = true → c = ' ')) ∧
    List.Chain' spacedApart (normalizeList x) ∧
    (∀ c, (normalizeList x).head? = some c → isSpacePy c = false) ∧
    (∀ c, (normalizeList x).getLast? = some c → isSpacePy c = false) := by
  have hw : ∀ c ∈ (pyStripList (x.map charLower)).map
      (fun c => if isAllowedChar c then c else ' '),
      isAllowedChar c = true ∧ charLower c = c := by
    intro c hc
    rcases List.mem_map.mp hc with ⟨d, hd, rfl⟩
    by_cases had : isAllowedChar d = true
    · rw [if_pos had]
      rcases List.mem_map.mp (mem_pyStripList hd) with ⟨e, _, rfl⟩
      exact ⟨had, charLower_idem e⟩
    · rw [if_neg had]
      exact ⟨by decide, by decide⟩
  have hz : ∀ c ∈ collapseWs ((pyStripList (x.map charLower)).map
      (fun c => if isAllowedChar c then c else ' ')),
      charLower c = c ∧ isAllowedChar c = true ∧ (isSpacePy c = true → c = ' ') := by
    intro c hc
    rcases mem_collapseWsAux false hc with rfl | ⟨hmem, hns⟩
    · exact ⟨by decide, by decide, fun _ => rfl⟩
    · obtain ⟨hall, hlow⟩ := hw c hmem
      exact ⟨hlow, hall, fun hsp2 => by simp [hns] at hsp2⟩
  refine ⟨fun c hc => hz c (mem_pyStripList hc), ?_, ?_, ?_⟩
  · exact chain'_pyStrip ((collapse_chain _).1 false)
  · exact fun c h => pyStrip_head_not_space c h
  · exact fun c h => pyStrip_getLast_not_space c h

theorem normalizeList_fixed (x : List Char) :
    normalizeList (normalizeList x) = normalizeList x := by
  obtain ⟨hA, hchain, hhead, hlast⟩ := normalizeList_facts x
  have h1 : (normalizeList x).map charLower = normalizeList x :=
    map_id_of_fix (fun c hc => (hA c hc).1)
  have h2 : pyStripList (normalizeList x) = normalizeList x := pyStrip_id hhead hlast
  have h3 : (normalizeList x).map (fun c => if isAllowedChar c then c else ' ')
      = normalizeList x :=
    map_id_of_fix (fun c hc => by rw [if_pos (hA c hc).2.1])
  have h4 : collapseWs (normalizeList x) = normalizeList x :=
    (collapse_id (normalizeList x) (fun c hc => (hA c hc).2.2) hchain).1
  calc normalizeList (normalizeList x)
      = pyStripList (collapseWs ((pyStripList ((normalizeList x).map charLower)).map
          (fun c => if isAllowedChar c then c else ' '))) := rfl
    _ = normalizeList x := by rw [h1, h2, h3, h4, h2]

/-- C8: `normalize_text` is idempotent. -/
theorem c8_normalize_idempotent (x : String) :
    normalize_text (normalize_text x) = normalize_text x := by
  by_cases hx : x = ""
  · subst hx; rfl
  · have hx2 : normalize_text x = String.mk (normalizeList x.toList) := by
      unfold normalize_text; rw [if_neg hx]
    rw [hx2]
    unfold normalize_text
    by_cases hy : String.mk (normalizeList x.toList) = ""
    · rw [if_pos hy, hy]
    · rw [if_neg hy]
      exact congrArg String.mk (normalizeList_fixed x.toList)

/-! ### C6: sentiment analysis -/

/-- Lower-casing a string commutes with whitespace splitting. -/
theorem pySplitAux_map_charLower (l : List Char) : ∀ cur : List Char,
    pySplitAux (l.map charLower) (cur.map charLower) =
      (pySplitAux l cur).map pyLower := by
  induction l with
  | nil =>
    intro cur
    cases cur with
    | nil => rfl
    | cons c cs =>
      simp only [List.map_nil, pySplitAux, List.map_cons, List.isEmpty_cons]
      simp [pyLower, List.map_reverse]
  | cons c rest ih =>
    intro cur
    simp only [List.map_cons, pySplitAux, isSpacePy_charLower c]
    cases hsp : isSpacePy c
    · simpa [hsp] using ih (c :: cur)
    · cases cur with
      | nil => simpa [hsp] using ih []
      | cons d ds =>
        simp only [hsp, if_true, List.isEmpty_cons, List.map_cons]
        simpa [pyLower, List.map_reverse] using ih []

theorem pyWords_pyLower (t : String) : pyWords (pyLower t) = (pyWords t).map pyLower :=
  pySplitAux_map_charLower t.toList []

theorem keywordCount_perm {l1 l2 : List String} (h : l1.Perm l2) (kw : List String) :
    keywordCount l1 kw = keywordCount l2 kw :=
  ((h.dedup).filter _).length_eq

/-- `keywordCount` is the cardinality of the set intersection of the words
with the keyword set. -/
theorem keywordCount_eq_card_inter (l kw : List String) :
    keywordCount l kw = (l.toFinset ∩ kw.toFinset).card := by
  unfold keywordCount
  have hnd : (l.dedup.filter (fun w => kw.contains w)).Nodup := l.nodup_dedup.filter _
  rw [← List.toFinset_card_of_nodup hnd]
  congr 1
  ext w
  simp [List.mem_filter, List.mem_dedup]

/-- C6: sentiment classification is exactly the reference definition -
intersect the set of whitespace-split lower-cased words with the four fixed
keyword sets and resolve EXCITED / FRUSTRATED / POSITIVE / NEGATIVE /
NEUTRAL in the stated order; empty input is NEUTRAL; and the tag is
invariant under permutation of the input's words. -/
theorem c6_sentiment_matches_reference :
    analyze_sentiment "" = .NEUTRAL ∧
    (∀ t, analyze_sentiment t = sentimentReference t) ∧
    (∀ t1 t2, (pyWords t1).Perm (pyWords t2) →
      analyze_sentiment t1 = analyze_sentiment t2) := by
  refine ⟨rfl, ?_, ?_⟩
  · intro t
    by_cases ht : t = ""
    · subst ht; rfl
    · simp only [analyze_sentiment, sentimentReference, if_neg ht]
      rw [keywordCount_eq_card_inter, keywordCount_eq_card_inter,
          keywordCount_eq_card_inter, keywordCount_eq_card_inter]
  · intro t1 t2 hperm
    have hl : (pyWords (pyLower t1)).Perm (pyWords (pyLower t2)) := by
      rw [pyWords_pyLower, pyWords_pyLower]
      exact hperm.map _
    have hc : ∀ kw, keywordCount (pyWords (pyLower t1)) kw
        = keywordCount (pyWords (pyLower t2)) kw :=
      fun kw => keywordCount_perm hl kw
    by_cases h1 : t1 = "" <;> by_cases h2 : t2 = ""
    · subst h1; subst h2; rfl
    · subst h1
      have hz : ∀ kw, keywordCount (pyWords (pyLower t2)) kw = 0 :=
        fun kw => (hc kw).symm
      simp only [analyze_sentiment, if_neg h2, hz]
      rfl
    · subst h2
      have hz : ∀ kw, keywordCount (pyWords (pyLower t1)) kw = 0 :=
        fun kw => hc kw
      simp only [analyze_sentiment, if_neg h1, hz]
      rfl
    · simp only [analyze_sentiment, if_neg h1, if_neg h2,
        hc POSITIVE_KEYWORDS, hc NEGATIVE_KEYWORDS,
        hc FRUSTRATED_KEYWORDS, hc EXCITED_KEYWORDS]

/-- C6 witness: permuting the words of a positive utterance. -/
theorem c6_witness :
    (pyWords "sách hay tuyệt").Perm (pyWords "tuyệt sách hay") ∧
    analyze_sentiment "sách hay tuyệt" = analyze_sentiment "tuyệt sách hay" :=
  ⟨by decide!,
   c6_sentiment_matches_reference.2.2 "sách hay tuyệt" "tuyệt sách hay" (by decide!)⟩

/-! ### C2 / C3: general facts about the classification loop -/

/-- The classification fold either keeps the initial best or returns the
adjusted confidence (raw + priority bonus) and intent of one of the
candidate matches. -/
theorem classify_fold_spec (s : List Char) (cands : List (IntentType × Nat × Nat))
    (st0 : BestState) :
    ((cands.foldl (classifyStep s) st0).intent = st0.intent ∧
      (cands.foldl (classifyStep s) st0).conf = st0.conf) ∨
    ∃ c ∈ cands, (cands.foldl (classifyStep s) st0).intent = c.1 ∧
      (cands.foldl (classifyStep s) st0).conf =
        calculate_confidence s c.2.1 c.2.2 + (intent_priority c.1 : ℚ) * (1/100) := by
  induction cands generalizing st0 with
  | nil => exact Or.inl ⟨rfl, rfl⟩
  | cons c rest ih =>
    simp only [List.foldl_cons]
    rcases ih (classifyStep s st0 c) with ⟨h1, h2⟩ | ⟨d, hd, h1, h2⟩
    · by_cases hlt :
        st0.conf < calculate_confidence s c.2.1 c.2.2 + (intent_priority c.1 : ℚ) * (1/100)
      · right
        refine ⟨c, List.mem_cons_self _ _, ?_, ?_⟩
        · rw [h1]; simp only [classifyStep]; rw [if_pos hlt]
        · rw [h2]; simp only [classifyStep]; rw [if_pos hlt]
      · left
        refine ⟨?_, ?_⟩
        · rw [h1]; simp only [classifyStep]; rw [if_neg hlt]
        · rw [h2]; simp only [classifyStep]; rw [if_neg hlt]
    · right; exact ⟨d, List.mem_cons_of_mem _ hd, h1, h2⟩

theorem calculate_confidence_nonneg (s : List Char) (a b : Nat) :
    0 ≤ calculate_confidence s a b := by
  simp only [calculate_confidence]
  refine le_min (by norm_num) ?_
  have hb : (0:ℚ) ≤
      (if 0 < s.length then min ((7:ℚ)/10) (((b - a : Nat) : ℚ) / (s.length : ℚ) * 2)
       else (1:ℚ)/2) := by
    split_ifs
    · exact le_min (by norm_num) (by positivity)
    · norm_num
  have hk : (0:ℚ) ≤ (if importantKeywords.any
      (fun k => containsSub k.toList ((sliceList s a b).map charLower)) then (2:ℚ)/5 else 0) := by
    split_ifs <;> norm_num
  have hp : (0:ℚ) ≤ (if (a : ℚ) < (s.length : ℚ) * (1/2) then (1:ℚ)/5 else 0) := by
    split_ifs <;> norm_num
  have hl : (0:ℚ) ≤ (if 10 < b - a then (1:ℚ)/10 else 0) := by
    split_ifs <;> norm_num
  linarith

theorem calculate_confidence_le_one (s : List Char) (a b : Nat) :
    calculate_confidence s a b ≤ 1 := by
  simp only [calculate_confidence]
  exact min_le_left _ _

theorem intent_priority_le_ten (it : IntentType) : intent_priority it ≤ 10 := by
  cases it <;> decide

/-- Every candidate's adjusted confidence lies in [0, 11/10]. -/
theorem adjusted_confidence_bounds (s : List Char) (a b : Nat) (it : IntentType) :
    0 ≤ calculate_confidence s a b + (intent_priority it : ℚ) * (1/100) ∧
    calculate_confidence s a b + (intent_priority it : ℚ) * (1/100) ≤ 11/10 := by
  have h0 := calculate_confidence_nonneg s a b
  have h1 := calculate_confidence_le_one s a b
  have hp : (intent_priority it : ℚ) ≤ 10 := by exact_mod_cast intent_priority_le_ten it
  have hp0 : (0:ℚ) ≤ (intent_priority it : ℚ) := by positivity
  constructor
  · nlinarith
  · nlinarith

/-- C2 (amended): the confidence recorded in the IntentResult is the
*adjusted* confidence of the winning match - its raw match confidence plus
the priority bonus `priority * 0.01` - (or 0 with intent UNKNOWN when no
match ever beats the initial best); the raw confidence without the bonus is
recorded only on the match's entity. -/
theorem c2_result_confidence_includes_bonus (text : String) :
    ((classify_intent text).intent = .UNKNOWN ∧ (classify_intent text).confidence = 0) ∨
    ∃ c ∈ allCandidates (expand_synonyms (normalize_text text)).toList,
      (classify_intent text).intent = c.1 ∧
      (classify_intent text).confidence =
        calculate_confidence (expand_synonyms (normalize_text text)).toList c.2.1 c.2.2
          + (intent_priority c.1 : ℚ) * (1/100) := by
  by_cases ht : text = ""
  · subst ht; left; exact ⟨rfl, rfl⟩
  · have hspec := classify_fold_spec (expand_synonyms (normalize_text text)).toList
      (allCandidates (expand_synonyms (normalize_text text)).toList)
      ⟨.UNKNOWN, 0, []⟩
    simp only [classify_intent, if_neg ht]
    rcases hspec with ⟨h1, h2⟩ | ⟨c, hc, h1, h2⟩
    · left; exact ⟨h1, h2⟩
    · right; exact ⟨c, hc, h1, h2⟩

/-- C3 (amended): the confidence of every classification result lies in the
closed interval [0, 1.1] (raw confidence in [0, 1] plus a priority bonus of
at most 10 * 0.01); the bound 1.1 is attained, so [0, 1] is wrong. -/
theorem c3_confidence_bounds (text : String) :
    0 ≤ (classify_intent text).confidence ∧ (classify_intent text).confidence ≤ 11/10 := by
  by_cases ht : text = ""
  · subst ht
    constructor
    · exact le_refl 0
    · show (0:ℚ) ≤ 11/10
      norm_num
  · have hspec := classify_fold_spec (expand_synonyms (normalize_text text)).toList
      (allCandidates (expand_synonyms (normalize_text text)).toList)
      ⟨.UNKNOWN, 0, []⟩
    simp only [classify_intent, if_neg ht]
    rcases hspec with ⟨-, h2⟩ | ⟨c, -, -, h2⟩
    · rw [h2]
      exact ⟨le_refl 0, by norm_num⟩
    · rw [h2]
      exact adjusted_confidence_bounds _ _ _ _

/-! ### C7: price-range extraction -/

/-- C7: price-range extraction tries the six patterns in the fixed order -
(a) range with the price keyword, (b) bare range, (c) single-sided with the
price keyword, (d) single-sided with the currency unit, (e) bare above,
(f) bare below - and the first matching pattern wins; in particular
"giá từ 50000 đến 150000" yields (50000, 150000), "dưới 100000" yields
(None, 100000) and "trên 200000" yields (200000, None). -/
theorem c7_price_range_extraction :
    extract_price_parameters "giá từ 50000 đến 150000" = some (some 50000, some 150000) ∧
    extract_price_parameters "dưới 100000" = some (none, some 100000) ∧
    extract_price_parameters "trên 200000" = some (some 200000, none) ∧
    (∀ t m, reSearch t.toList priceRangeKwPat = some m →
      extract_price_parameters t = some (groupInt t.toList m 1, groupInt t.toList m 2)) ∧
    (∀ t m, reSearch t.toList priceRangeKwPat = none →
      reSearch t.toList priceRangeBarePat = some m →
      extract_price_parameters t = some (groupInt t.toList m 1, groupInt t.toList m 2)) ∧
    (∀ t m, reSearch t.toList priceRangeKwPat = none →
      reSearch t.toList priceRangeBarePat = none →
      reSearch t.toList priceSingleKwPat = some m →
      extract_price_parameters t =
        (if groupLower t.toList m 1 = "dưới" ∨ groupLower t.toList m 1 = "thấp hơn" then
          some (none, groupInt t.toList m 2)
        else if groupLower t.toList m 1 = "từ" ∨ groupLower t.toList m 1 = "trên"
            ∨ groupLower t.toList m 1 = "cao hơn" then
          some (groupInt t.toList m 2, none)
        else none)) ∧
    (∀ t m, reSearch t.toList priceRangeKwPat = none →
      reSearch t.toList priceRangeBarePat = none →
      reSearch t.toList priceSingleKwPat = none →
      reSearch t.toList priceVndPat = some m →
      extract_price_parameters t =
        (if groupLower t.toList m 1 = "dưới" then some (none, groupInt t.toList m 2)
        else if groupLower t.toList m 1 = "từ" ∨ groupLower t.toList m 1 = "trên" then
          some (groupInt t.toList m 2, none)
        else none)) ∧
    (∀ t m, reSearch t.toList priceRangeKwPat = none →
      reSearch t.toList priceRangeBarePat = none →
      reSearch t.toList priceSingleKwPat = none →
      reSearch t.toList priceVndPat = none →
      reSearch t.toList priceAbovePat = some m →
      extract_price_parameters t = some (groupInt t.toList m 2, none)) ∧
    (∀ t m, reSearch t.toList priceRangeKwPat = none →
      reSearch t.toList priceRangeBarePat = none →
      reSearch t.toList priceSingleKwPat = none →
      reSearch t.toList priceVndPat = none →
      reSearch t.toList priceAbovePat = none →
      reSearch t.toList priceBelowPat = some m →
      extract_price_parameters t = some (none, groupInt t.toList m 2)) := by
  refine ⟨?_, ?_, ?_, ?_, ?_, ?_, ?_, ?_, ?_⟩
  · decide!
  · decide!
  · decide!
  · intro t m h1
    simp only [String.toList] at h1
    simp [extract_price_parameters, h1]
  · intro t m h1 h2
    simp only [String.toList] at h1 h2
    simp [extract_price_parameters, h1, h2]
  · intro t m h1 h2 h3
    simp only [String.toList] at h1 h2 h3
    simp [extract_price_parameters, h1, h2, h3]
  · intro t m h1 h2 h3 h4
    simp only [String.toList] at h1 h2 h3 h4
    simp [extract_price_parameters, h1, h2, h3, h4]
  · intro t m h1 h2 h3 h4 h5
    simp only [String.toList] at h1 h2 h3 h4 h5
    simp [extract_price_parameters, h1, h2, h3, h4, h5]
  · intro t m h1 h2 h3 h4 h5 h6
    simp only [String.toList] at h1 h2 h3 h4 h5 h6
    simp [extract_price_parameters, h1, h2, h3, h4, h5, h6]

/-- C7 witness: the bare-range pattern applies to "từ 1 đến 2" once the
keyword-qualified range pattern has failed. -/
theorem c7_witness :
    extract_price_parameters "từ 1 đến 2" =
      some (groupInt "từ 1 đến 2".toList (0, 10, [(2, 9, 10), (1, 3, 4)]) 1,
            groupInt "từ 1 đến 2".toList (0, 10, [(2, 9, 10), (1, 3, 4)]) 2) :=
  c7_price_range_extraction.2.2.2.2.1 "từ 1 đến 2" (0, 10, [(2, 9, 10), (1, 3, 4)])
    (by decide!) (by decide!)

end Bookstore
